import Mathlib

/-!
Verification of the GlobalProtect client authentication module
(`auth-globalprotect.c` of openconnect).

The source file is shallowly embedded below.  External collaborators that the
module calls into (HTTPS transport, the generic auth-form UI, base64 decoding,
URL decoding, OTP token generation, the config-persistence sink and redirect
handling) are passed in as explicit oracle parameters, exactly where the C code
calls out of the file.  Memory-allocation failures (`ENOMEM` paths) are not
modelled: allocation always succeeds in the model.  Logging (`vpn_progress`)
is modelled only where a claim refers to it (the logout driver), via explicit
event lists; elsewhere it is pure output and is dropped.

C error codes are modelled by the enumeration `RC` below:
`-EINVAL ↦ RC.einval` ("InvalidResponse"), `-EPERM ↦ RC.eperm`
("PermissionDenied"), `-EACCES ↦ RC.eacces` ("Unauthorized"),
`-EAGAIN ↦ RC.eagain` (challenge continuation), `-EEXIST ↦ RC.eexist`
("not a portal/gateway"), `0 ↦ RC.ok`.
-/

set_option linter.unusedVariables false

/-- Result codes, mirroring the C `int` results of the module
(negative errno values, 0 for success, and the positive
`OC_FORM_RESULT_CANCELLED`).  `exhausted` is a model artifact returned when a
scripted environment runs out of scripted responses. -/
inductive RC where
  | ok | eagain | eacces | eexist | einval | eperm | enomem | eio | cancelled | exhausted
  deriving DecidableEq, Repr

/-- `result < 0` in C: true exactly for the errno-style codes. -/
def RC.isNeg : RC → Bool
  | .ok => false
  | .cancelled => false
  | .exhausted => false
  | _ => true

/-- A parsed XML tree as delivered by libxml2: element nodes with properties
and children, text nodes, and other node kinds (comments, CDATA, ...)
which the C code always skips or reads as empty. -/
inductive Xml where
  | elem (name : String) (props : List (String × String)) (children : List Xml)
  | text (s : String)
  | other

def Xml.children : Xml → List Xml
  | .elem _ _ cs => cs
  | _ => []

def Xml.isElem : Xml → Bool
  | .elem .. => true
  | _ => false

/-- ASCII lower-casing of one character, for the case-insensitive name
compare below. -/
def asciiLower (c : Char) : Char :=
  if 'A' ≤ c ∧ c ≤ 'Z' then Char.ofNat (c.toNat + 32) else c

/-- Modelled from the spec: `xmlnode_is_named` (XML helper of this repository,
outside the given source file) tests whether a node carries the given name,
case-insensitively (`strcasecmp`). -/
def xmlnode_is_named (n : Xml) (name : String) : Bool :=
  match n with
  | .elem nm _ _ => nm.toList.map asciiLower == name.toList.map asciiLower
  | _ => false

/-- Modelled from the spec: the text content of a node (libxml2
`xmlNodeGetContent`, an external library function).  The documents this
module reads keep their text directly inside the element being queried, so
content is modelled as the concatenation of the node's immediate text
children. -/
def xmlContent : Xml → String
  | .text s => s
  | .elem _ _ cs =>
    (cs.map fun c => match c with | .text s => s | _ => "").foldl (fun a b => a ++ b) ""
  | .other => ""

/-- Modelled from the spec: `xmlnode_get_val` (XML helper of this repository,
outside the given source file): the node content if the node carries the
requested name, failure otherwise. -/
def xmlnode_get_val (n : Xml) (name : String) : Option String :=
  if xmlnode_is_named n name then some (xmlContent n) else none

/-- Modelled from the spec: `xmlnode_get_prop` (XML helper of this repository,
outside the given source file): lookup of an element property. -/
def xmlnode_get_prop (n : Xml) (name : String) : Option String :=
  match n with
  | .elem _ props _ => (props.find? (fun p => p.1 == name)).map (·.2)
  | _ => none

/-- `enum oc_form_opt_type` restricted to the kinds this module uses. -/
inductive OptType where
  | text | hidden | password | token | select
  deriving DecidableEq, Repr

/-- `struct oc_choice`: one gateway choice.  Both fields come from the XML and
may be absent (NULL in C). -/
structure OcChoice where
  name : Option String := none
  label : Option String := none
  deriving DecidableEq, Repr

/-- `struct oc_form_opt` (with the `oc_form_opt_select` choice list folded in
as a `choices` field, empty for non-select fields). -/
structure OcFormOpt where
  name : String := ""
  label : String := ""
  type : OptType := .text
  value : Option String := none
  choices : List OcChoice := []
  deriving DecidableEq, Repr

/-- `struct oc_auth_form` as used by this module. -/
structure OcAuthForm where
  message : String := ""
  auth_id : String := ""
  action : Option String := none
  opts : List OcFormOpt := []
  deriving DecidableEq, Repr

/-- The fields of `struct openconnect_info` that this module reads or writes.
`cookie` is kept as the structured list of `name=value` pairs that the C code
serialises with `append_opt`/`buf_append` (the urlencoded rendering is done by
external buffer primitives). -/
structure VpnInfo where
  cookie : Option (List (String × String)) := none
  localname : String := ""
  urlpath : Option String := none
  authgroup : Option String := none
  redirect_url : Option String := none
  trojan_interval : Int := 0
  token_bypassed : Bool := false
  write_new_config : Bool := false
  hostname : String := ""
  port : Nat := 443
  deriving DecidableEq, Repr

/-- `struct login_context` (lines 28–34). -/
structure LoginCtx where
  username : Option String := none
  alt_secret : Option String := none
  portal_userauthcookie : Option String := none
  portal_prelogonuserauthcookie : Option String := none
  form : Option OcAuthForm := none
  deriving DecidableEq, Repr

/-! ## Argument Schema Validator and Login Response Parser
(`struct gp_login_arg`, `gp_login_args`, `parse_login_xml`, lines 260–391) -/

/-- `struct gp_login_arg` (lines 260–268).  The C bitfields become `Bool`s;
the C field `show` is spelled `show_` because `show` is a Lean keyword. -/
structure GpLoginArg where
  opt : Option String := none
  save : Bool := false
  show_ : Bool := false
  warn_missing : Bool := false
  err_missing : Bool := false
  unknown : Bool := false
  check : Option String := none
  deriving DecidableEq, Repr

/-- The fixed positional schema `gp_login_args` (lines 269–291). -/
def gp_login_args : List GpLoginArg := [
  { unknown := true },
  { opt := some "authcookie", save := true, err_missing := true },
  { opt := some "persistent-cookie", warn_missing := true },
  { opt := some "portal", save := true, warn_missing := true },
  { opt := some "user", save := true, err_missing := true },
  { opt := some "authentication-source", show_ := true },
  { opt := some "configuration", warn_missing := true },
  { opt := some "domain", save := true, warn_missing := true },
  { unknown := true },
  { unknown := true },
  { unknown := true },
  { unknown := true },
  { opt := some "connection-type", err_missing := true, check := some "tunnel" },
  { opt := some "password-expiration-days", show_ := true },
  { opt := some "clientVer", err_missing := true, check := some "4100" },
  { opt := some "preferred-ip", save := true },
  { opt := some "portal-userauthcookie", show_ := true },
  { opt := some "portal-prelogonuserauthcookie", show_ := true },
  { opt := some "preferred-ipv6", save := true },
  { opt := some "usually-equals-4", show_ := true },
  { opt := some "usually-equals-unknown", show_ := true }]

/-- `gp_login_nargs` (line 292). -/
def gp_login_nargs : Nat := gp_login_args.length

/-- The "treated as absent" normalisation of line 324: an argument value equal
to the empty string, `"(null)"` or `"-1"` becomes NULL. -/
def normVal (s : String) : Option String :=
  if s = "" ∨ s = "(null)" ∨ s = "-1" then none else some s

/-- The schema entry consulted at loop position `argn` (line 319):
`gp_login_args[(argn < gp_login_nargs) ? argn : 0]` — position 0 is reused for
surplus arguments. -/
def loopArgAt (n : Nat) : GpLoginArg :=
  gp_login_args.getD (if n < gp_login_nargs then n else 0) {}

/-- The value seen at loop position `n` (lines 321–336): NULL past the end of
the argument list, the normalised content otherwise, URL-decoded in place when
the governing schema entry has `save` set.  `udec` is the external
`urldecode_inplace` primitive. -/
def loopValueAt (udec : String → String) (values : List String) (n : Nat) : Option String :=
  match values[n]? with
  | none => none
  | some s =>
    match normVal s with
    | none => none
    | some v => some (if (loopArgAt n).save then udec v else v)

/-- The mutable loop state of `parse_login_xml`: the cookie buffer (as the
sequence of `name=value` pairs appended via `append_opt`) and the two
counters. -/
structure ScanState where
  cookie : List (String × String) := []
  unknown_args : Nat := 0
  fatal_args : Nat := 0
  deriving DecidableEq, Repr

/-- The body of the argument loop for one position (lines 341–365): the
diagnostic classification cascade followed by the conditional cookie append.
`fatal_args += arg->err_missing` adds the bitfield as 0/1. -/
def stepArg (a : GpLoginArg) (w : Option String) (st : ScanState) : ScanState :=
  let st :=
    if a.unknown && w.isSome then
      { st with unknown_args := st.unknown_args + 1 }
    else if a.check.isSome && (w.isNone || w != a.check) then
      { st with unknown_args := st.unknown_args + 1,
                fatal_args := st.fatal_args + (if a.err_missing then 1 else 0) }
    else if (a.err_missing || a.warn_missing) && w.isNone then
      { st with unknown_args := st.unknown_args + 1,
                fatal_args := st.fatal_args + (if a.err_missing then 1 else 0) }
    else st
  if w.isSome && a.save then
    { st with cookie := st.cookie ++ [(a.opt.getD "", w.getD "")] }
  else st

/-- One loop position as a fold step. -/
def scanStep (udec : String → String) (values : List String) (st : ScanState) (n : Nat) :
    ScanState :=
  stepArg (loopArgAt n) (loopValueAt udec values n) st

/-- The argument loop of lines 312–369: `for (argn = 0; argn < gp_login_nargs
|| xml_node; argn++)`.  The XML cursor is exhausted exactly when `argn` has
passed the end of the extracted argument-value list, so the loop condition is
`argn < gp_login_nargs ∨ argn < values.length`. -/
def scanLoop (udec : String → String) (values : List String) (argn : Nat) (st : ScanState) :
    ScanState :=
  if h : argn < gp_login_nargs ∨ argn < values.length then
    scanLoop udec values (argn + 1) (scanStep udec values st argn)
  else st
termination_by max gp_login_nargs values.length - argn
decreasing_by
  simp_wf
  omega

/-- The number of loop iterations: `max` of the schema length and the argument
count. -/
def scanMax (values : List String) : Nat := max gp_login_nargs values.length

/-- `[s, s+1, ..., s+k-1]`. -/
def posRange : Nat → Nat → List Nat
  | _, 0 => []
  | s, k + 1 => s :: posRange (s + 1) k

/-- Running the whole argument loop from position 0 on an empty state. -/
def runScan (udec : String → String) (values : List String) : ScanState :=
  scanLoop udec values 0 {}

/-- The diagnostic branch taken at a position contributes to `fatal_args` iff
this condition holds (read off the cascade of lines 341–357). -/
def fatalCond (a : GpLoginArg) (w : Option String) : Bool :=
  if a.unknown && w.isSome then false
  else if a.check.isSome && (w.isNone || w != a.check) then a.err_missing
  else if (a.err_missing || a.warn_missing) && w.isNone then a.err_missing
  else false

/-- The pair appended to the cookie at a position, if any (line 364–365). -/
def savePairAt (udec : String → String) (values : List String) (n : Nat) :
    Option (String × String) :=
  if (loopValueAt udec values n).isSome && (loopArgAt n).save then
    some ((loopArgAt n).opt.getD "", (loopValueAt udec values n).getD "")
  else none

/-- The cookie pairs produced by the walk: for each position in order, the
`name=value` pair of a present `save`-policy value. -/
def savedCookiePairs (udec : String → String) (values : List String) :
    List (String × String) :=
  (posRange 0 (scanMax values)).filterMap (savePairAt udec values)

/-- A schema entry with the `err_missing` policy is violated at a position:
its exact-match value differs (or is absent), or — with no exact-match
value — its value is absent. -/
def errMissingViolated (udec : String → String) (values : List String) (n : Nat) : Prop :=
  (loopArgAt n).err_missing = true ∧
    match (loopArgAt n).check with
    | some c => loopValueAt udec values n ≠ some c
    | none => loopValueAt udec values n = none

/-- Extraction of the flat positional argument list from the XML document
(lines 301–311 plus the per-iteration `xmlnode_get_val(xml_node, "argument",
...)` of line 323): the root must be `jnlp`, its first element child must be
`application-desc`, and every element child of that must be an `argument`
element; any other shape is `-EINVAL`. -/
def loginArgValuesOf (root : Xml) : Option (List String) :=
  if xmlnode_is_named root "jnlp" then
    match (root.children.filter Xml.isElem).head? with
    | some ad =>
      if xmlnode_is_named ad "application-desc" then
        let es := ad.children.filter Xml.isElem
        if es.all (fun e => xmlnode_is_named e "argument") then some (es.map xmlContent)
        else none
      else none
    | none => none
  else none

/-- The walk plus the epilogue of lines 370–385: append the synthesized
`computer=<localname>` entry, then fail with `-EPERM` if any fatal argument
was seen, else deliver the assembled cookie. -/
def parse_login_args (udec : String → String) (localname : String) (values : List String) :
    Except RC (List (String × String)) :=
  let st := runScan udec values
  let cookie := st.cookie ++ [("computer", localname)]
  if st.fatal_args ≠ 0 then .error .eperm else .ok cookie

/-- `parse_login_xml` (lines 294–391).  On success the only state change is
`vpninfo->cookie`; on any failure `vpninfo` is returned unchanged.  The
`cb_data` context argument is accepted and, as in the C, never used. -/
def parse_login_xml (udec : String → String) (vpn : VpnInfo) (cb_data : LoginCtx)
    (root : Xml) : VpnInfo × RC :=
  match loginArgValuesOf root with
  | none => (vpn, .einval)
  | some values =>
    match parse_login_args udec vpn.localname values with
    | .error rc => (vpn, rc)
    | .ok cookie => ({ vpn with cookie := some cookie }, .ok)

/-! ## Prelogin Form Builder (`parse_prelogin_xml`, lines 76–203) -/

/-- The values extracted from the children of `prelogin-response`
(lines 88–114).  Each matching child overwrites the previous value
(`xmlnode_get_val` frees and replaces). -/
structure PreloginFields where
  prompt : Option String := none
  username_label : Option String := none
  password_label : Option String := none
  saml_method : Option String := none
  saml_path : Option String := none
  deriving DecidableEq, Repr

/-- The child scan of lines 88–114.  A `saml-request` child is base64-decoded
through the external `openconnect_base64_decode` oracle `b64`; a decode
failure aborts with `-EINVAL`.  Any other child is probed for the four named
values. -/
def scanPreloginChildren (b64 : String → Option String) :
    List Xml → PreloginFields → Except RC PreloginFields
  | [], acc => .ok acc
  | c :: rest, acc =>
    if xmlnode_is_named c "saml-request" then
      match b64 (xmlContent c) with
      | none => .error .einval
      | some p => scanPreloginChildren b64 rest { acc with saml_path := some p }
    else
      let acc := match xmlnode_get_val c "saml-auth-method" with
        | some s => { acc with saml_method := some s }
        | none => acc
      let acc := match xmlnode_get_val c "authentication-message" with
        | some s => { acc with prompt := some s }
        | none => acc
      let acc := match xmlnode_get_val c "username-label" with
        | some s => { acc with username_label := some s }
        | none => acc
      let acc := match xmlnode_get_val c "password-label" with
        | some s => { acc with password_label := some s }
        | none => acc
      scanPreloginChildren b64 rest acc

/-- The password-vs-token heuristic of lines 185–189:
`!can_gen_tokencode(...) && !ctx->alt_secret && password_label &&
strcmp(password_label, "Password")`. -/
def tokenHeuristic (can_gen : Bool) (alt_secret : Option String)
    (password_label : Option String) : Bool :=
  !can_gen && alt_secret.isNone &&
    (match password_label with
     | some pl => pl != "Password"
     | none => false)

/-- The auth form built at lines 142–189 from the extracted fields and the
session context. -/
def mkPreloginForm (can_gen : Bool) (ctx : LoginCtx) (f : PreloginFields) : OcAuthForm :=
  let opt1 : OcFormOpt :=
    { name := "user",
      label := (f.username_label.getD "Username") ++ ": ",
      type := if ctx.username.isNone then .text else .hidden,
      value := if ctx.username.isNone then none else ctx.username }
  let opt2 : OcFormOpt :=
    { name := ctx.alt_secret.getD "passwd",
      label := (ctx.alt_secret.getD (f.password_label.getD "Password")) ++ ": ",
      type := if tokenHeuristic can_gen ctx.alt_secret f.password_label then .token
              else .password,
      value := none }
  { message := f.prompt.getD "Please enter your username and password",
    auth_id := "_login",
    action := none,
    opts := [opt1, opt2] }

/-- `parse_prelogin_xml` (lines 76–203).  `can_gen` is the result of the
external `can_gen_tokencode` collaborator.  A non-`prelogin-response` root
returns 0 without touching the context (line 85–86).  With a SAML marker
present, the flow is blocked with `-EPERM` unless the context holds one of the
three completion signals (lines 116–140).  Otherwise the form replaces
`ctx->form` and, if a prior username exists, it is moved into the hidden
identity field (lines 161–167). -/
def parse_prelogin_xml (b64 : String → Option String) (can_gen : Bool)
    (ctx : LoginCtx) (root : Xml) : LoginCtx × RC :=
  if ¬ xmlnode_is_named root "prelogin-response" then (ctx, .ok)
  else
    match scanPreloginChildren b64 root.children {} with
    | .error rc => (ctx, rc)
    | .ok f =>
      if (f.saml_method.isSome || f.saml_path.isSome) &&
         ctx.portal_userauthcookie.isNone &&
         ctx.portal_prelogonuserauthcookie.isNone &&
         ctx.alt_secret.isNone then
        (ctx, .eperm)
      else
        ({ ctx with form := some (mkPreloginForm can_gen ctx f), username := none }, .ok)

/-! ## Portal Response Parser (`parse_portal_xml`, lines 400–566) -/

/-- The state threaded through the scan of the `policy` children
(lines 435–473). -/
structure PortalScanSt where
  gateways : Option Xml := none
  portal : Option String := none
  vpn : VpnInfo
  ctx : LoginCtx

/-- One child of `policy` (the body of the loop at lines 436–472).  `atoi` is
the external C `atoi`.  A `gateways` child is searched for
`external`/`list` subtrees (the last found wins); a `hip-collection` child
adjusts the trojan interval; any other child is probed for the portal name and
the two portal cookies, where an empty or literal `"empty"` cookie value is
dropped. -/
def portalScanChild (atoi : String → Int) (st : PortalScanSt) (x : Xml) : PortalScanSt :=
  if xmlnode_is_named x "gateways" then
    { st with gateways :=
        x.children.foldl (fun g x2 =>
          if xmlnode_is_named x2 "external" then
            x2.children.foldl (fun g x3 =>
              if xmlnode_is_named x3 "list" then some x3 else g) g
          else g) st.gateways }
  else if xmlnode_is_named x "hip-collection" then
    { st with vpn :=
        x.children.foldl (fun v x2 =>
          match xmlnode_get_val x2 "hip-report-interval" with
          | none => v
          | some s =>
            let sec := atoi s
            if v.trojan_interval ≠ 0 then v
            else { v with trojan_interval := sec - 60 }) st.vpn }
  else
    let st := match xmlnode_get_val x "portal-name" with
      | some s => { st with portal := some s }
      | none => st
    let st := match xmlnode_get_val x "portal-userauthcookie" with
      | some s =>
        { st with ctx := { st.ctx with portal_userauthcookie :=
            if s = "" ∨ s = "empty" then none else some s } }
      | none => st
    let st := match xmlnode_get_val x "portal-prelogonuserauthcookie" with
      | some s =>
        { st with ctx := { st.ctx with portal_prelogonuserauthcookie :=
            if s = "" ∨ s = "empty" then none else some s } }
      | none => st
    st

/-- The whole `policy` scan (lines 435–473); a non-`policy` root scans
nothing, leaving `gateways` NULL. -/
def portalScan (atoi : String → Int) (vpn : VpnInfo) (ctx : LoginCtx) (root : Xml) :
    PortalScanSt :=
  if xmlnode_is_named root "policy" then
    root.children.foldl (portalScanChild atoi) { vpn := vpn, ctx := ctx }
  else { vpn := vpn, ctx := ctx }

/-- The choice built from one `entry` element (lines 506–528): `name` from the
`name` property, `label` from the content of the last nested `description`
child (each one found overwrites the previous). -/
def gatewayChoiceOf (e : Xml) : OcChoice :=
  { name := xmlnode_get_prop e "name",
    label := ((e.children.filter (fun x2 => xmlnode_is_named x2 "description")).map
                xmlContent).getLast? }

/-- The choice list of the gateway `list` element, in document order. -/
def gatewayChoices (g : Xml) : List OcChoice :=
  (g.children.filter (fun x => xmlnode_is_named x "entry")).map gatewayChoiceOf

/-- `parse_portal_xml` (lines 400–566).  External collaborators:
`atoi`; `wnc_result`, the scripted result of the registered
`write_new_config` callback (`vpn.write_new_config` says whether one is
registered; the generated server-list document itself is out of the model);
`paf`, the `process_auth_form` collaborator, which may update `vpninfo`
(gateway selection ends up in `authgroup`); `hr`, the `handle_redirect`
collaborator.  The built gateway-selection form is also returned so its
contents can be inspected. -/
def parse_portal_xml (atoi : String → Int) (wnc_result : RC)
    (paf : OcAuthForm → VpnInfo → RC × VpnInfo) (hr : VpnInfo → RC × VpnInfo)
    (vpn : VpnInfo) (ctx : LoginCtx) (root : Xml) : RC × VpnInfo × LoginCtx × OcAuthForm :=
  let opt0 : OcFormOpt := { name := "gateway", label := "GATEWAY:", type := .select }
  let form0 : OcAuthForm :=
    { message := "Please select GlobalProtect gateway.", auth_id := "_portal",
      opts := [opt0] }
  let st := portalScan atoi vpn ctx root
  match st.gateways with
  | none => (.einval, st.vpn, st.ctx, form0)
  | some g =>
    let choices := gatewayChoices g
    let form : OcAuthForm := { form0 with opts := [{ opt0 with choices := choices }] }
    if choices.isEmpty then (.einval, st.vpn, st.ctx, form)
    else
      let vpn := if st.vpn.authgroup.isNone then
          { st.vpn with authgroup := (choices.headD {}).name }
        else st.vpn
      if vpn.write_new_config = true ∧ wnc_result ≠ .ok then (wnc_result, vpn, st.ctx, form)
      else
        let pafr := paf form vpn
        if pafr.1 = .cancelled ∨ pafr.1.isNeg = true then (pafr.1, pafr.2, st.ctx, form)
        else
          let vpn := { pafr.2 with
            redirect_url := some ("https://" ++ pafr.2.authgroup.getD "") }
          let hrr := hr vpn
          (hrr.1, hrr.2, st.ctx, form)

/-! ## Logout Driver (`gpst_bye`, lines 735–785) -/

/-- The two log lines of `gpst_bye`. -/
inductive ByeEv where
  | logout_failed
  | logout_ok
  deriving DecidableEq, Repr

/-- Modelled from the spec: `gpst_xml_or_error` (gpst.c, not among the given
source files) with no callbacks, as used for the logout response: success is
an XML document whose root is a `response` element with a success status;
anything else — including a body that does not parse as XML at all
(`none` here) — is an error. -/
def gpst_xml_or_error_nocb (body : Option Xml) : RC :=
  match body with
  | some root =>
    if xmlnode_is_named root "response" ∧ xmlnode_get_prop root "status" = some "success"
    then .ok else .einval
  | none => .einval

/-- `gpst_bye` (lines 735–785).  `resp` is the scripted outcome of the logout
round trip: a transport error, or a response body (`none` = unparseable).
The function posts the stored cookie verbatim, classifies the response, logs
the outcome, and returns the classification result; `vpninfo` (in particular
the stored cookie) is never modified. -/
def gpst_bye (resp : Except RC (Option Xml)) (vpn : VpnInfo) :
    RC × VpnInfo × List ByeEv :=
  let result := match resp with
    | .error rc => rc
    | .ok body => gpst_xml_or_error_nocb body
  if result.isNeg then (result, vpn, [.logout_failed])
  else (result, vpn, [.logout_ok])

/-! ## Login Orchestrator (`gpst_login`, lines 574–694, and
`gpst_obtain_cookie`, lines 696–733)

The orchestrator is a loop with two extra entry points (`goto got_form`,
`goto replay_form`).  Its four external round trips are scripted:

* a prelogin round trip delivers either an error (transport failure or an
  error/unparseable document classified by the external `gpst_xml_or_error`)
  or a parsed XML document which is then fed to `parse_prelogin_xml`;
* `process_auth_form` is an arbitrary scripted function of the current form;
* `do_gen_tokencode` is a scripted result code;
* a login/getconfig round trip delivers the combined outcome of
  `do_https_request` + `gpst_xml_or_error` with the
  `parse_portal_xml`/`parse_login_xml`/`challenge_cb` callbacks: a result
  code together with the callbacks' effect on the context (the callbacks
  touch only `ctx->form` and the two portal cookies — `parse_login_xml`
  ignores its context argument entirely, `parse_portal_xml` writes the portal
  cookies, `challenge_cb` rewrites the form) and on `vpninfo`.

Each pass through the loop body consumes exactly one login/getconfig round
trip before looping, so a run is driven with fuel `submits.length + 1`; a run
that outruns its script ends with the artificial code `RC.exhausted`. -/

/-- Observable events of an orchestrator run, used to state temporal
claims: the prelogin request, the form-collection step, the tokencode step,
each form submission with its result, the `nuke_opt_values` call, the
username capture of lines 668–670, and the blind-retry activation of
lines 682–683. -/
inductive Ev where
  | prelogin
  | collect
  | gen_token
  | submit (rc : RC)
  | nuke
  | capture (u : Option String)
  | blind_retry_fired
  deriving DecidableEq, Repr

/-- The local state of one `gpst_login` activation: the `portal` mode flag and
`blind_retry` local variables, plus the shared context and `vpninfo`. -/
structure LoginState where
  portal : Bool
  blind_retry : Bool := false
  ctx : LoginCtx := {}
  vpn : VpnInfo := {}
  deriving DecidableEq, Repr

/-- One scripted login/getconfig round trip (see the section comment). -/
structure RoundTrip where
  rc : RC
  updForm : Option OcAuthForm → Option OcAuthForm := id
  updPUC : Option String → Option String := id
  updPPUC : Option String → Option String := id
  updVpn : VpnInfo → VpnInfo := id

/-- The scripted environment of a `gpst_login` activation. -/
structure Script where
  prelogins : List (Except RC Xml) := []
  collects : List (Option OcAuthForm → RC × Option OcAuthForm) := []
  tokens : List RC := []
  submits : List RoundTrip := []

/-- The three entry points of the loop body: the top of the `for (;;)` loop,
`got_form:` and `replay_form:`. -/
inductive Phase where
  | top | gotForm | replayForm
  deriving DecidableEq, Repr

/-- Where the response handling sends the control flow next. -/
inductive NextAct where
  | halt (rc : RC)
  | toTop
  | toGotForm
  | toReplayForm
  deriving DecidableEq, Repr

/-- `ctx->form->auth_id` (the C dereferences the form unconditionally at
line 681; an absent form reads as the empty string here). -/
def formAuthId : Option OcAuthForm → String
  | some f => f.auth_id
  | none => ""

/-- `ctx->form->opts->_value` (line 670); an absent form or empty option list
reads as no value here (the C would dereference NULL). -/
def formHeadValue : Option OcAuthForm → Option String
  | some f => (f.opts.headD {}).value
  | none => none

/-- Modelled from the spec: `nuke_opt_values` (library code outside the given
source file) clears all entered field values of the form. -/
def nuke_opt_values (f : OcAuthForm) : OcAuthForm :=
  { f with opts := f.opts.map (fun o => { o with value := none }) }

def nukeCtxForm (ctx : LoginCtx) : LoginCtx :=
  { ctx with form := ctx.form.map nuke_opt_values }

/-- The response handling of lines 658–687, applied after the scripted round
trip's context/vpninfo updates.  `-EACCES` blanks the form and either
re-prompts (`goto got_form`) or — immediately after a blind retry — clears the
retry flag and falls through to the top of the loop.  Any other result first
captures the username if none is known; `-EAGAIN` re-enters at `got_form`;
a portal-mode success switches to gateway mode and, when a completion signal
is present, fires the one-shot blind retry (`goto replay_form`); anything else
leaves the loop with the result. -/
def handle_submit_response (st : LoginState) (rc : RC) : LoginState × NextAct × List Ev :=
  if rc = .eacces then
    let st := { st with ctx := nukeCtxForm st.ctx }
    if st.blind_retry = false then (st, .toGotForm, [.nuke])
    else ({ st with blind_retry := false }, .toTop, [.nuke])
  else
    let cap := st.ctx.username.isNone
    let st := if cap then
        { st with ctx := { st.ctx with username := formHeadValue st.ctx.form } }
      else st
    let evs := if cap then [Ev.capture (formHeadValue st.ctx.form)] else []
    if rc = .eagain then (st, .toGotForm, evs)
    else if st.portal = true ∧ rc = .ok then
      let st := { st with portal := false }
      if st.ctx.portal_userauthcookie.isSome ||
         st.ctx.portal_prelogonuserauthcookie.isSome ||
         ((formAuthId st.ctx.form != "_challenge") && st.ctx.alt_secret.isNone) then
        ({ st with blind_retry := true }, .toReplayForm, evs ++ [.blind_retry_fired])
      else (st, .toTop, evs)
    else (st, .halt rc, evs)

/-- The prelogin stage (lines 582–608), entered only from the top of the
loop.  The urlpath juggling around the request only affects the outgoing
request (external I/O) and restores `vpninfo->urlpath`, so it has no residual
state effect to model. -/
def stage_prelogin (b64 : String → Option String) (can_gen : Bool) (ph : Phase)
    (st : LoginState) (sc : Script) :
    (RC × LoginState × List Ev) ⊕ (LoginState × Script × List Ev) :=
  match ph with
  | .top =>
    match sc.prelogins with
    | [] => .inl (.exhausted, st, [.prelogin])
    | p :: ps =>
      let sc := { sc with prelogins := ps }
      match p with
      | .error rc => .inl (rc, st, [.prelogin])
      | .ok xml =>
        let pr := parse_prelogin_xml b64 can_gen st.ctx xml
        let st := { st with ctx := pr.1 }
        if pr.2 ≠ .ok then .inl (pr.2, st, [.prelogin])
        else .inr (st, sc, [.prelogin])
  | _ => .inr (st, sc, [])

/-- The form-collection stage (`got_form:`, lines 610–614), skipped when
re-entering at `replay_form:`. -/
def stage_collect (ph : Phase) (st : LoginState) (sc : Script) :
    (RC × LoginState × List Ev) ⊕ (LoginState × Script × List Ev) :=
  if ph = .replayForm then .inr (st, sc, [])
  else
    match sc.collects with
    | [] => .inl (.exhausted, st, [.collect])
    | c :: cs =>
      let r := c st.ctx.form
      let st := { st with ctx := { st.ctx with form := r.2 } }
      let sc := { sc with collects := cs }
      if r.1 ≠ .ok then .inl (r.1, st, [.collect])
      else .inr (st, sc, [.collect])

/-- The tokencode stage (`replay_form:`, lines 616–623): a failure reports,
sets `token_bypassed` and leaves the whole login. -/
def stage_token (st : LoginState) (sc : Script) :
    (RC × LoginState × List Ev) ⊕ (LoginState × Script × List Ev) :=
  match sc.tokens with
  | [] => .inl (.exhausted, st, [.gen_token])
  | t :: ts =>
    let sc := { sc with tokens := ts }
    if t ≠ .ok then
      .inl (t, { st with vpn := { st.vpn with token_bypassed := true } }, [.gen_token])
    else .inr (st, sc, [.gen_token])

/-- The effect of the scripted round trip's callbacks on the orchestrator
state (the context fields the callbacks may touch, and `vpninfo`). -/
def applyRoundTrip (rt : RoundTrip) (st : LoginState) : LoginState :=
  { st with
    ctx := { st.ctx with
      form := rt.updForm st.ctx.form,
      portal_userauthcookie := rt.updPUC st.ctx.portal_userauthcookie,
      portal_prelogonuserauthcookie := rt.updPPUC st.ctx.portal_prelogonuserauthcookie },
    vpn := rt.updVpn st.vpn }

/-- The submission stage (lines 625–687): consume one scripted round trip,
apply the callbacks' state updates, and dispatch on the result. -/
def stage_submit (st : LoginState) (sc : Script) :
    (RC × LoginState × List Ev) ⊕ (Phase × LoginState × Script × List Ev) :=
  match sc.submits with
  | [] => .inl (.exhausted, st, [])
  | rt :: rest =>
    let sc := { sc with submits := rest }
    let st := applyRoundTrip rt st
    let h := handle_submit_response st rt.rc
    let evs := Ev.submit rt.rc :: h.2.2
    match h.2.1 with
    | .halt rc => .inl (rc, h.1, evs)
    | .toTop => .inr (.top, h.1, sc, evs)
    | .toGotForm => .inr (.gotForm, h.1, sc, evs)
    | .toReplayForm => .inr (.replayForm, h.1, sc, evs)

/-- One pass through the loop body, from the given entry point up to and
including the dispatch on the submission result. -/
def loginIter (b64 : String → Option String) (can_gen : Bool) (ph : Phase)
    (st : LoginState) (sc : Script) :
    (RC × LoginState × List Ev) ⊕ (Phase × LoginState × Script × List Ev) :=
  match stage_prelogin b64 can_gen ph st sc with
  | .inl r => .inl r
  | .inr (st, sc, e1) =>
    match stage_collect ph st sc with
    | .inl (rc, st, e2) => .inl (rc, st, e1 ++ e2)
    | .inr (st, sc, e2) =>
      match stage_token st sc with
      | .inl (rc, st, e3) => .inl (rc, st, e1 ++ e2 ++ e3)
      | .inr (st, sc, e3) =>
        match stage_submit st sc with
        | .inl (rc, st, e4) => .inl (rc, st, e1 ++ e2 ++ e3 ++ e4)
        | .inr (ph, st, sc, e4) => .inr (ph, st, sc, e1 ++ e2 ++ e3 ++ e4)

/-- The `for (;;)` loop, driven by fuel (each pass consumes one scripted
submission, so `sc.submits.length + 1` fuel never runs out before the
script does). -/
def loginLoopF (b64 : String → Option String) (can_gen : Bool) :
    Nat → Phase → LoginState → Script → RC × LoginState × List Ev
  | 0, _, st, _ => (.exhausted, st, [])
  | fuel + 1, ph, st, sc =>
    match loginIter b64 can_gen ph st sc with
    | .inl r => r
    | .inr (ph, st, sc, evs) =>
      let r := loginLoopF b64 can_gen fuel ph st sc
      (r.1, r.2.1, evs ++ r.2.2)

/-- `gpst_login` (lines 574–694). -/
def gpst_login (b64 : String → Option String) (can_gen : Bool) (portal : Bool)
    (ctx : LoginCtx) (vpn : VpnInfo) (sc : Script) : RC × LoginState × List Ev :=
  loginLoopF b64 can_gen (sc.submits.length + 1) .top
    { portal := portal, blind_retry := false, ctx := ctx, vpn := vpn } sc

/-- The alt-secret extraction of lines 706–710: split the urlpath at the last
`:` (C `strrchr`), truncating the path in place. -/
def splitAltSecret (s : String) : String × Option String :=
  let rev := s.toList.reverse
  if rev.contains ':' then
    (String.mk ((rev.dropWhile (fun c => c ≠ ':')).tail.reverse),
     some (String.mk ((rev.takeWhile (fun c => c ≠ ':')).reverse)))
  else (s, none)

/-- `!strncmp(s, p, strlen(p))`: `s` starts with `p`. -/
def strncmpLeads (p s : String) : Bool := s.toList.take p.toList.length == p.toList

/-- The alt-secret extraction of lines 701–710 as applied to `vpninfo`:
when the urlpath carries a `:field_name` suffix, truncate the path and
extract the field name. -/
def obtainSetup (vpn : VpnInfo) : VpnInfo × Option String :=
  match vpn.urlpath with
  | some up =>
    let pa := splitAltSecret up
    (if pa.2.isSome then { vpn with urlpath := some pa.1 } else vpn, pa.2)
  | none => (vpn, none)

/-- The portal-vs-gateway decision of lines 712–726: `some true` = assume
portal, `some false` = assume gateway, `none` = try portal then fall back to
gateway. -/
def obtainMode (urlpath : Option String) : Option Bool :=
  match urlpath with
  | some up =>
    if up = "portal" ∨ strncmpLeads "global-protect" up = true then some true
    else if up = "gateway" ∨ strncmpLeads "ssl-vpn" up = true then some false
    else none
  | none => none

/-- `gpst_obtain_cookie` (lines 696–733).  `sc1` scripts the first
`gpst_login` activation, `sc2` the portal→gateway fallback activation (used
only when the first reports `-EEXIST`). -/
def gpst_obtain_cookie (b64 : String → Option String) (can_gen : Bool)
    (sc1 sc2 : Script) (vpn : VpnInfo) : RC × LoginState × List Ev :=
  let va := obtainSetup vpn
  let ctx : LoginCtx := { alt_secret := va.2 }
  match obtainMode va.1.urlpath with
  | some b => gpst_login b64 can_gen b ctx va.1 sc1
  | none =>
    let r := gpst_login b64 can_gen true ctx va.1 sc1
    if r.1 = .eexist then
      let r2 := gpst_login b64 can_gen false r.2.1.ctx r.2.1.vpn sc2
      (r2.1, r2.2.1, r.2.2 ++ r2.2.2)
    else r

/-! ## Concrete demonstration inputs -/

/-- A wire argument element `<argument>s</argument>`. -/
def mkArg (s : String) : Xml := .elem "argument" [] [.text s]

/-- A well-formed gateway login argument list (the conventional 21 positions;
`domain` is the literal `"(null)"`, `password-expiration-days` is `"-1"`). -/
def demoLoginValues : List String :=
  ["", "abc123", "deadbeef", "Acme", "alice", "LDAP-auth", "vsys1", "(null)",
   "", "", "", "", "tunnel", "-1", "4100", "10.0.0.5", "", "", "", "", ""]

/-- The cookie expected from `demoLoginValues` with local hostname
`localhost`. -/
def demoLoginCookie : List (String × String) :=
  [("authcookie", "abc123"), ("portal", "Acme"), ("user", "alice"),
   ("preferred-ip", "10.0.0.5"), ("computer", "localhost")]

/-- Argument values whose `connection-type` (position 12) is `"web"` instead
of `"tunnel"`. -/
def demoLoginValuesBad : List String :=
  ["", "abc123", "deadbeef", "Acme", "alice", "LDAP-auth", "vsys1", "(null)",
   "", "", "", "", "web", "-1", "4100", "10.0.0.5", "", "", "", "", ""]

/-- A login response document carrying `demoLoginValuesBad`. -/
def demoLoginXmlBad : Xml :=
  .elem "jnlp" [] [.elem "application-desc" [] (demoLoginValuesBad.map mkArg)]

/-- A good login response document (argument values `demoLoginValues`). -/
def demoLoginXmlGood : Xml :=
  .elem "jnlp" [] [.elem "application-desc" [] (demoLoginValues.map mkArg)]

/-- A prelogin response with a custom password label (token heuristic
applies). -/
def demoPreloginToken : Xml :=
  .elem "prelogin-response" [] [
    .elem "username-label" [] [.text "Corporate login"],
    .elem "password-label" [] [.text "One-Time Code"]]

/-- A prelogin response carrying a SAML request whose payload is not valid
base64 (under `demoB64`). -/
def demoSamlBad : Xml :=
  .elem "prelogin-response" [] [.elem "saml-request" [] [.text "!!!"]]

/-- A base64 oracle for the demos: `"!!!"` is invalid, everything else decodes
to itself. -/
def demoB64 : String → Option String := fun s => if s = "!!!" then none else some s

/-- `<entry name="host"><description>desc</description></entry>`. -/
def demoEntry (host desc : String) : Xml :=
  .elem "entry" [("name", host)] [.elem "description" [] [.text desc]]

/-- A gateway list with two entries. -/
def demoGatewayList : Xml :=
  .elem "list" [] [
    demoEntry "gw1.example.com" "Gateway One",
    demoEntry "gw2.example.com:8443" "Gateway Two"]

/-- A portal config response advertising two gateways. -/
def demoPortalXml : Xml :=
  .elem "policy" [] [.elem "gateways" [] [.elem "external" [] [demoGatewayList]]]

/-- A plain prelogin response (no labels, no SAML). -/
def demoPreloginXml : Xml := .elem "prelogin-response" [] []

/-- The form the scripted `process_auth_form` oracle returns: the prelogin
form with `user=alice`, `passwd=pw` filled in. -/
def demoFilledForm : OcAuthForm :=
  { message := "Please enter your username and password",
    auth_id := "_login",
    opts := [
      { name := "user", label := "Username: ", type := .text, value := some "alice" },
      { name := "passwd", label := "Password: ", type := .password, value := some "pw" }] }

/-- A scripted `process_auth_form` that fills in `demoFilledForm`. -/
def demoCollect : Option OcAuthForm → RC × Option OcAuthForm :=
  fun _ => (.ok, some demoFilledForm)

/-- Script of a portal login whose blind gateway retry is rejected
(`-EACCES`) and whose subsequent fresh gateway login succeeds. -/
def demoScript4 : Script :=
  { prelogins := [.ok demoPreloginXml, .ok demoPreloginXml],
    collects := [demoCollect, demoCollect],
    tokens := [.ok, .ok, .ok],
    submits := [{ rc := .ok }, { rc := .eacces }, { rc := .ok }] }

def demoVpn4 : VpnInfo := { urlpath := some "portal" }

/-- Script of a gateway login whose single submission fails with
`-EINVAL` (a failed, not rejected, attempt). -/
def demoScript9 : Script :=
  { prelogins := [.ok demoPreloginXml],
    collects := [demoCollect],
    tokens := [.ok],
    submits := [{ rc := .einval }] }

def demoVpn9 : VpnInfo := { urlpath := some "gateway" }

/-- An empty script (for unused fallback activations). -/
def demoScriptNone : Script := {}

/-- A prelogin response carrying a SAML method marker only. -/
def demoSamlOk : Xml :=
  .elem "prelogin-response" [] [.elem "saml-auth-method" [] [.text "REDIRECT"]]

/-- The fields extracted from `demoSamlOk`. -/
def demoSamlFields : PreloginFields := { saml_method := some "REDIRECT" }

/-- A session context holding the `portal_userauthcookie` completion
signal. -/
def demoCtx6 : LoginCtx := { portal_userauthcookie := some "c" }

/-- The fields extracted from `demoPreloginToken`. -/
def demoTokenFields : PreloginFields :=
  { username_label := some "Corporate login", password_label := some "One-Time Code" }

/-- An orchestrator state with no prior username and the retry flag clear. -/
def demoStA : LoginState := { portal := false, blind_retry := false }

/-- An orchestrator state with the retry flag set. -/
def demoStB : LoginState := { portal := false, blind_retry := true }

/-- A session context whose username is already known. -/
def demoCtx9 : LoginCtx := { username := some "alice" }

/-- The context produced by a prelogin on `demoCtx9` (username moved into the
hidden identity field). -/
def demoCtx9Out : LoginCtx := { form := some (mkPreloginForm false demoCtx9 {}) }

/-- The context produced by a prelogin on an empty context. -/
def demoCtx9Out2 : LoginCtx := { form := some (mkPreloginForm false {} {}) }

deriving instance DecidableEq for Except

/-! ## Auxiliary lemmas about the argument walk -/

theorem mem_posRange {m s k : Nat} : m ∈ posRange s k ↔ s ≤ m ∧ m < s + k := by
  induction k generalizing s with
  | zero => simp [posRange]
  | succ k ih =>
    simp only [posRange, List.mem_cons, ih]
    omega

theorem stepArg_fatal_args (a : GpLoginArg) (w : Option String) (st : ScanState) :
    (stepArg a w st).fatal_args = st.fatal_args + (if fatalCond a w then 1 else 0) := by
  by_cases h1 : (a.unknown && w.isSome) = true <;>
  by_cases h2 : (a.check.isSome && (w.isNone || w != a.check)) = true <;>
  by_cases h3 : ((a.err_missing || a.warn_missing) && w.isNone) = true <;>
  by_cases h4 : (w.isSome && a.save) = true <;>
  simp [stepArg, fatalCond, h1, h2, h3, h4]

theorem stepArg_cookie (a : GpLoginArg) (w : Option String) (st : ScanState) :
    (stepArg a w st).cookie = st.cookie ++
      (if (w.isSome && a.save) = true then [(a.opt.getD "", w.getD "")] else []) := by
  by_cases h1 : (a.unknown && w.isSome) = true <;>
  by_cases h2 : (a.check.isSome && (w.isNone || w != a.check)) = true <;>
  by_cases h3 : ((a.err_missing || a.warn_missing) && w.isNone) = true <;>
  by_cases h4 : (w.isSome && a.save) = true <;>
  simp [stepArg, h1, h2, h3, h4]

theorem foldl_scanStep_fatal (u : String → String) (v : List String) (l : List Nat)
    (st : ScanState) :
    (l.foldl (scanStep u v) st).fatal_args
      = st.fatal_args + l.countP (fun n => fatalCond (loopArgAt n) (loopValueAt u v n)) := by
  induction l generalizing st with
  | nil => simp
  | cons n ns ih =>
    rw [List.foldl_cons, ih, List.countP_cons, scanStep, stepArg_fatal_args]
    omega

theorem foldl_scanStep_cookie (u : String → String) (v : List String) (l : List Nat)
    (st : ScanState) :
    (l.foldl (scanStep u v) st).cookie = st.cookie ++ l.filterMap (savePairAt u v) := by
  induction l generalizing st with
  | nil => simp
  | cons n ns ih =>
    rw [List.foldl_cons, ih, List.filterMap_cons, scanStep, stepArg_cookie]
    by_cases h : ((loopValueAt u v n).isSome && (loopArgAt n).save) = true <;>
      simp [savePairAt, h]

theorem scanLoop_eq_foldl (u : String → String) (v : List String) :
    ∀ (k argn : Nat) (st : ScanState), scanMax v - argn = k →
      scanLoop u v argn st = (posRange argn k).foldl (scanStep u v) st := by
  intro k
  induction k with
  | zero =>
    intro argn st hk
    have h : ¬ (argn < gp_login_nargs ∨ argn < v.length) := by
      simp only [scanMax] at hk
      omega
    rw [scanLoop, dif_neg h]
    rfl
  | succ k ih =>
    intro argn st hk
    have h : argn < gp_login_nargs ∨ argn < v.length := by
      simp only [scanMax] at hk
      omega
    rw [scanLoop, dif_pos h, ih (argn + 1) _ (by simp only [scanMax] at hk ⊢; omega)]
    rfl

theorem runScan_fatal (u : String → String) (v : List String) :
    (runScan u v).fatal_args
      = (posRange 0 (scanMax v)).countP
          (fun n => fatalCond (loopArgAt n) (loopValueAt u v n)) := by
  rw [runScan, scanLoop_eq_foldl u v (scanMax v) 0 {} (by omega), foldl_scanStep_fatal]
  simp

theorem runScan_cookie (u : String → String) (v : List String) :
    (runScan u v).cookie = savedCookiePairs u v := by
  rw [runScan, scanLoop_eq_foldl u v (scanMax v) 0 {} (by omega), foldl_scanStep_cookie]
  rfl

/-- Executable form of `parse_login_args`: the loop of `scanLoop` (defined by
well-founded recursion, which the kernel does not unfold) replaced by the
equivalent structural fold, for concrete evaluation. -/
theorem parse_login_args_exec (u : String → String) (ln : String) (v : List String) :
    parse_login_args u ln v =
      (let st := (posRange 0 (scanMax v)).foldl (scanStep u v) {}
       if st.fatal_args ≠ 0 then .error .eperm
       else .ok (st.cookie ++ [("computer", ln)])) := by
  have h : runScan u v = (posRange 0 (scanMax v)).foldl (scanStep u v) {} := by
    rw [runScan]
    exact scanLoop_eq_foldl u v (scanMax v) 0 {} (by omega)
  simp only [parse_login_args, h]

/-- Executable form of `parse_login_xml` (see `parse_login_args_exec`). -/
theorem parse_login_xml_exec (u : String → String) (vpn : VpnInfo) (ctx : LoginCtx)
    (root : Xml) :
    parse_login_xml u vpn ctx root =
      (match loginArgValuesOf root with
       | none => (vpn, .einval)
       | some values =>
         match (let st := (posRange 0 (scanMax values)).foldl (scanStep u values) {}
                if st.fatal_args ≠ 0 then Except.error RC.eperm
                else Except.ok (st.cookie ++ [("computer", vpn.localname)])) with
         | .error rc => (vpn, rc)
         | .ok cookie => ({ vpn with cookie := some cookie }, .ok)) := by
  simp only [parse_login_xml, parse_login_args_exec]

theorem loopArgAt_ge {n : Nat} (h : gp_login_nargs ≤ n) :
    loopArgAt n = { unknown := true } := by
  unfold loopArgAt
  rw [if_neg (by omega)]
  rfl

theorem fatalCond_unknown_entry (w : Option String) :
    fatalCond { unknown := true } w = false := by
  cases w <;> rfl

theorem fatalCond_charact (u : String → String) (v : List String) (n : Nat) :
    fatalCond (loopArgAt n) (loopValueAt u v n) = true ↔ errMissingViolated u v n := by
  by_cases hn : n < gp_login_nargs
  · have h21 : gp_login_nargs = 21 := rfl
    have hlt : n < 21 := by omega
    unfold errMissingViolated
    generalize loopValueAt u v n = w
    interval_cases n <;> cases w <;>
      simp [loopArgAt, gp_login_nargs, gp_login_args, fatalCond]
  · unfold errMissingViolated
    rw [loopArgAt_ge (Nat.le_of_not_lt hn), fatalCond_unknown_entry]
    simp

theorem fatal_args_pos_iff (u : String → String) (v : List String) :
    (runScan u v).fatal_args ≠ 0 ↔
      ∃ n, n < gp_login_nargs ∧ errMissingViolated u v n := by
  rw [runScan_fatal]
  constructor
  · intro h
    obtain ⟨n, hmem, hp⟩ := List.countP_pos_iff.mp (Nat.pos_of_ne_zero h)
    refine ⟨n, ?_, (fatalCond_charact u v n).mp hp⟩
    by_contra hn
    rw [loopArgAt_ge (Nat.le_of_not_lt hn), fatalCond_unknown_entry] at hp
    exact absurd hp (by simp)
  · rintro ⟨n, hn, hv⟩
    have hp := (fatalCond_charact u v n).mpr hv
    have hmem : n ∈ posRange 0 (scanMax v) := by
      rw [mem_posRange]
      simp only [scanMax]
      omega
    exact (List.countP_pos_iff.mpr ⟨n, hmem, hp⟩).ne'

/-! ## Claim C1 -/

/-- C1: the login-response argument validator walks the fixed schema table
and the XML argument list in lock-step by position, iterating while either
has entries remaining (first two conjuncts: the loop stops exactly when both
are exhausted and otherwise advances one position at a time); the consulted
schema index is always in bounds, so no out-of-bounds access occurs (third
conjunct); every schema position beyond the supplied argument list is
evaluated with an absent value (fourth conjunct); and every surplus argument
position reuses the position-0 always-unknown schema entry, under which a
present value increments the unexpected-argument counter rather than being
silently dropped (last two conjuncts). -/
theorem claim1_lockstep_walk (udec : String → String) (values : List String) :
    (∀ argn st, gp_login_nargs ≤ argn → values.length ≤ argn →
        scanLoop udec values argn st = st) ∧
    (∀ argn st, argn < gp_login_nargs ∨ argn < values.length →
        scanLoop udec values argn st
          = scanLoop udec values (argn + 1) (scanStep udec values st argn)) ∧
    (∀ n, (if n < gp_login_nargs then n else 0) < gp_login_args.length) ∧
    (∀ n, values.length ≤ n → loopValueAt udec values n = none) ∧
    (∀ n, gp_login_nargs ≤ n →
        loopArgAt n = { unknown := true } ∧ (loopArgAt n).unknown = true) ∧
    (∀ n st, gp_login_nargs ≤ n → (loopValueAt udec values n).isSome = true →
        (stepArg (loopArgAt n) (loopValueAt udec values n) st).unknown_args
          = st.unknown_args + 1) := by
  refine ⟨?_, ?_, ?_, ?_, ?_, ?_⟩
  · intro argn st h1 h2
    rw [scanLoop, dif_neg (by omega)]
  · intro argn st h
    rw [scanLoop, dif_pos h]
  · intro n
    by_cases h : n < gp_login_nargs
    · rw [if_pos h]
      exact h
    · rw [if_neg h]
      decide
  · intro n h
    unfold loopValueAt
    rw [List.getElem?_eq_none h]
  · intro n h
    refine ⟨loopArgAt_ge h, ?_⟩
    rw [loopArgAt_ge h]
  · intro n st h hsome
    rw [loopArgAt_ge h]
    obtain ⟨w, hw⟩ := Option.isSome_iff_exists.mp hsome
    rw [hw]
    rfl

/-- Witness for C1: concrete instances of each conjunct.  The last one uses a
22-argument input, whose surplus position 21 carries a present value. -/
theorem claim1_lockstep_walk_witness :
    (scanLoop id ["x"] 21 {} = {}) ∧
    (scanLoop id ["x"] 0 {} = scanLoop id ["x"] 1 (scanStep id ["x"] {} 0)) ∧
    ((if 5 < gp_login_nargs then 5 else 0) < gp_login_args.length) ∧
    (loopValueAt id ["x"] 3 = none) ∧
    (loopArgAt 25 = { unknown := true } ∧ (loopArgAt 25).unknown = true) ∧
    ((stepArg (loopArgAt 21) (loopValueAt id (List.replicate 22 "v") 21) {}).unknown_args
      = ({} : ScanState).unknown_args + 1) :=
  ⟨(claim1_lockstep_walk id ["x"]).1 21 {} (by decide) (by decide),
   (claim1_lockstep_walk id ["x"]).2.1 0 {} (Or.inl (by decide)),
   (claim1_lockstep_walk id ["x"]).2.2.1 5,
   (claim1_lockstep_walk id ["x"]).2.2.2.1 3 (by decide),
   (claim1_lockstep_walk id ["x"]).2.2.2.2.1 25 (by decide),
   (claim1_lockstep_walk id (List.replicate 22 "v")).2.2.2.2.2 21 {} (by decide) (by decide)⟩

/-! ## Claim C2 -/

/-- C2: argument values equal to `""`, `"(null)"` or `"-1"` are treated as
absent (second conjunct); a present value at a `save`-policy position is
URL-decoded (third conjunct); and a successfully assembled cookie consists of
exactly the present `save`-policy fields, as `name=value` pairs in schema
order, followed by the synthesized `computer=<local hostname>` entry (first
conjunct). -/
theorem claim2_cookie_assembly (udec : String → String) (localname : String)
    (values : List String) (c : List (String × String))
    (h : parse_login_args udec localname values = .ok c) :
    c = savedCookiePairs udec values ++ [("computer", localname)] ∧
    (∀ n s, values[n]? = some s → (s = "" ∨ s = "(null)" ∨ s = "-1") →
        loopValueAt udec values n = none) ∧
    (∀ n s v, values[n]? = some s → normVal s = some v → (loopArgAt n).save = true →
        loopValueAt udec values n = some (udec v)) := by
  refine ⟨?_, ?_, ?_⟩
  · simp only [parse_login_args] at h
    by_cases hf : (runScan udec values).fatal_args ≠ 0
    · rw [if_pos hf] at h
      exact absurd h (by simp)
    · rw [if_neg hf] at h
      injection h with h
      rw [← h, runScan_cookie]
  · intro n s hs habs
    simp [loopValueAt, hs, normVal, habs]
  · intro n s v hs hnorm hsave
    simp [loopValueAt, hs, hnorm, hsave]

/-- Witness for C2: the conventional 21-argument login response, assembled
with the identity URL-decoder and local hostname `localhost`. -/
theorem claim2_cookie_assembly_witness :
    demoLoginCookie = savedCookiePairs id demoLoginValues ++ [("computer", "localhost")] ∧
    (∀ n s, demoLoginValues[n]? = some s → (s = "" ∨ s = "(null)" ∨ s = "-1") →
        loopValueAt id demoLoginValues n = none) ∧
    (∀ n s v, demoLoginValues[n]? = some s → normVal s = some v →
        (loopArgAt n).save = true →
        loopValueAt id demoLoginValues n = some (id v)) :=
  claim2_cookie_assembly id "localhost" demoLoginValues demoLoginCookie
    (by rw [parse_login_args_exec]; decide)

/-! ## Claim C3 -/

/-- C3: whenever some `err_missing`-policy schema entry is violated (its
exact-match value differs, or its value is absent), `parse_login_xml` fails
with `-EPERM` (`PermissionDenied`) and `vpninfo` — in particular the session
cookie — is left unchanged; when no such entry is violated the parse succeeds
and sets the cookie, regardless of any non-fatal anomalies; and in particular
a `connection-type` argument (position 12) other than `"tunnel"` is fatal. -/
theorem claim3_err_missing_fatal (udec : String → String) (vpn : VpnInfo)
    (ctx : LoginCtx) (root : Xml) (values : List String)
    (hx : loginArgValuesOf root = some values) :
    ((∃ n, n < gp_login_nargs ∧ errMissingViolated udec values n) →
        parse_login_xml udec vpn ctx root = (vpn, .eperm)) ∧
    ((∀ n, n < gp_login_nargs → ¬ errMissingViolated udec values n) →
        ∃ c, parse_login_xml udec vpn ctx root = ({ vpn with cookie := some c }, .ok)) ∧
    (loopValueAt udec values 12 ≠ some "tunnel" →
        parse_login_xml udec vpn ctx root = (vpn, .eperm)) := by
  have himp : (∃ n, n < gp_login_nargs ∧ errMissingViolated udec values n) →
      parse_login_xml udec vpn ctx root = (vpn, .eperm) := by
    intro hex
    have hf := (fatal_args_pos_iff udec values).mpr hex
    simp [parse_login_xml, hx, parse_login_args, hf]
  refine ⟨himp, ?_, ?_⟩
  · intro hall
    have hz : ¬ (runScan udec values).fatal_args ≠ 0 := by
      intro h
      obtain ⟨n, hn, hv⟩ := (fatal_args_pos_iff udec values).mp h
      exact hall n hn hv
    refine ⟨(runScan udec values).cookie ++ [("computer", vpn.localname)], ?_⟩
    simp [parse_login_xml, hx, parse_login_args, hz]
  · intro h12
    exact himp ⟨12, by decide, by decide, h12⟩

/-- Witness for C3: a login response whose `connection-type` is `"web"` is
rejected with `-EPERM` and the passed-in `vpninfo` is returned unchanged. -/
theorem claim3_err_missing_fatal_witness :
    parse_login_xml id {} {} demoLoginXmlBad = ({}, .eperm) :=
  (claim3_err_missing_fatal id {} {} demoLoginXmlBad demoLoginValuesBad rfl).2.2
    (by decide)

/-! ## Claim C10 -/

theorem loopArgAt_mem (n : Nat) : loopArgAt n ∈ gp_login_args := by
  have h21 : gp_login_nargs = 21 := rfl
  unfold loopArgAt
  by_cases h : n < gp_login_nargs
  · rw [if_pos h]
    have hlt : n < 21 := by omega
    interval_cases n <;> decide
  · rw [if_neg h]
    decide

theorem save_opt_not_portal_cookie :
    ∀ a ∈ gp_login_args, a.save = true →
      a.opt.getD "" ≠ "portal-userauthcookie" ∧
      a.opt.getD "" ≠ "portal-prelogonuserauthcookie" := by decide

/-- C10 (implicit frame effect): `parse_login_xml` never reads or writes its
session-context argument (first conjunct: the result is independent of it);
the schema entries at positions 16 and 17 are the portal cookies with the
show-only policy — not saved (second conjunct) — and no pair of the
assembled cookie carries either name (third conjunct); and the parser's sole
state change is the `cookie` field of `vpninfo`, which moreover is changed
only on success (last conjunct). -/
theorem claim10_login_parser_frame (udec : String → String) (vpn : VpnInfo) (root : Xml) :
    (∀ c1 c2 : LoginCtx,
        parse_login_xml udec vpn c1 root = parse_login_xml udec vpn c2 root) ∧
    (gp_login_args.getD 16 {} =
        { opt := some "portal-userauthcookie", show_ := true } ∧
     gp_login_args.getD 17 {} =
        { opt := some "portal-prelogonuserauthcookie", show_ := true } ∧
     (gp_login_args.getD 16 {}).save = false ∧ (gp_login_args.getD 17 {}).save = false) ∧
    (∀ values p, loginArgValuesOf root = some values →
        p ∈ savedCookiePairs udec values →
        p.1 ≠ "portal-userauthcookie" ∧ p.1 ≠ "portal-prelogonuserauthcookie") ∧
    (∀ ctx vpn2 rc, parse_login_xml udec vpn ctx root = (vpn2, rc) →
        vpn2 = { vpn with cookie := vpn2.cookie } ∧ (rc ≠ .ok → vpn2 = vpn)) := by
  refine ⟨fun c1 c2 => rfl, by decide, ?_, ?_⟩
  · intro values p hx hp
    rw [savedCookiePairs, List.mem_filterMap] at hp
    obtain ⟨n, hmem, hsp⟩ := hp
    unfold savePairAt at hsp
    by_cases hc : ((loopValueAt udec values n).isSome && (loopArgAt n).save) = true
    · rw [if_pos hc] at hsp
      injection hsp with hsp
      have hsave : (loopArgAt n).save = true := by
        rcases Bool.and_eq_true_iff.mp hc with ⟨_, h⟩
        exact h
      have := save_opt_not_portal_cookie (loopArgAt n) (loopArgAt_mem n) hsave
      rw [← hsp]
      exact this
    · rw [if_neg hc] at hsp
      exact absurd hsp (by simp)
  · intro ctx vpn2 rc h
    rcases hx : loginArgValuesOf root with _ | values <;>
      simp only [parse_login_xml, hx] at h
    · injection h with h1 h2
      subst h1
      exact ⟨rfl, fun _ => rfl⟩
    · rcases hp : parse_login_args udec vpn.localname values with rc2 | cookie <;>
        simp only [hp] at h
      · injection h with h1 h2
        subst h1
        exact ⟨rfl, fun _ => rfl⟩
      · injection h with h1 h2
        subst h1 h2
        exact ⟨rfl, fun hne => absurd rfl hne⟩

/-- Witness for C10: a successful parse of the conventional login response
changes only the cookie field; the hypotheses of the frame conjuncts are
discharged at that concrete input. -/
theorem claim10_login_parser_frame_witness :
    (({ localname := "localhost", cookie := some demoLoginCookie } : VpnInfo)
        = { ({ localname := "localhost" } : VpnInfo) with
            cookie := ({ localname := "localhost",
                         cookie := some demoLoginCookie } : VpnInfo).cookie } ∧
      (RC.ok ≠ RC.ok →
        ({ localname := "localhost", cookie := some demoLoginCookie } : VpnInfo)
          = { localname := "localhost" })) ∧
    (("authcookie", "abc123").1 ≠ "portal-userauthcookie" ∧
     ("authcookie", "abc123").1 ≠ "portal-prelogonuserauthcookie") :=
  ⟨(claim10_login_parser_frame id { localname := "localhost" }
      demoLoginXmlGood).2.2.2 {}
      { localname := "localhost", cookie := some demoLoginCookie } .ok
      (by rw [parse_login_xml_exec]; decide),
   (claim10_login_parser_frame id { localname := "localhost" }
      demoLoginXmlGood).2.2.1 demoLoginValues ("authcookie", "abc123") rfl (by decide)⟩

/-! ## Claims C6 and C7 -/

/-- Reduction of `parse_prelogin_xml` on a `prelogin-response` root whose
children scan successfully: the SAML gate decides between `-EPERM` and the
built credential form. -/
theorem parse_prelogin_xml_built (b64 : String → Option String) (can_gen : Bool)
    (ctx : LoginCtx) (root : Xml) (f : PreloginFields)
    (hroot : xmlnode_is_named root "prelogin-response" = true)
    (hscan : scanPreloginChildren b64 root.children {} = .ok f) :
    parse_prelogin_xml b64 can_gen ctx root =
      if ((f.saml_method.isSome || f.saml_path.isSome) &&
          ctx.portal_userauthcookie.isNone &&
          ctx.portal_prelogonuserauthcookie.isNone &&
          ctx.alt_secret.isNone) = true then (ctx, .eperm)
      else ({ ctx with form := some (mkPreloginForm can_gen ctx f), username := none },
            .ok) := by
  simp [parse_prelogin_xml, hroot, hscan]

/-- C6 (amended): for every prelogin response whose children scan
successfully (in particular every `saml-request` payload base64-decodes) and
which carries a SAML request or SAML method marker, the form builder fails
with `-EPERM` (`PermissionDenied`) exactly when the session holds none of the
three completion signals `portal_userauthcookie`,
`portal_prelogonuserauthcookie`, `alt_secret`; when one of them is present
the flow proceeds and builds the credential form.  The original claim,
stated for every response containing a marker, is refuted by
`claim6_saml_gate_counterexample`: an undecodable `saml-request` payload
aborts with `-EINVAL` before the gate, even when a completion signal is
present. -/
theorem claim6_saml_gate (b64 : String → Option String) (can_gen : Bool)
    (ctx : LoginCtx) (root : Xml) (f : PreloginFields)
    (hroot : xmlnode_is_named root "prelogin-response" = true)
    (hscan : scanPreloginChildren b64 root.children {} = .ok f)
    (hmarker : f.saml_method.isSome = true ∨ f.saml_path.isSome = true) :
    ((parse_prelogin_xml b64 can_gen ctx root).2 = .eperm ↔
      (ctx.portal_userauthcookie = none ∧ ctx.portal_prelogonuserauthcookie = none ∧
       ctx.alt_secret = none)) ∧
    ((ctx.portal_userauthcookie ≠ none ∨ ctx.portal_prelogonuserauthcookie ≠ none ∨
        ctx.alt_secret ≠ none) →
      parse_prelogin_xml b64 can_gen ctx root
        = ({ ctx with form := some (mkPreloginForm can_gen ctx f), username := none },
           .ok)) := by
  have hred := parse_prelogin_xml_built b64 can_gen ctx root f hroot hscan
  have hm : (f.saml_method.isSome || f.saml_path.isSome) = true := by
    rcases hmarker with h | h <;> simp [h]
  by_cases h1 : ctx.portal_userauthcookie = none <;>
  by_cases h2 : ctx.portal_prelogonuserauthcookie = none <;>
  by_cases h3 : ctx.alt_secret = none <;>
    simp [hred, hm, h1, h2, h3, Option.isNone_iff_eq_none]

/-- Counterexample to C6 as stated: this prelogin response contains a SAML
request marker and the session holds the `portal_userauthcookie` completion
signal, yet the flow does not proceed to build the credential form — the
undecodable base64 payload aborts the parse with `-EINVAL`
(`InvalidResponse`) and the context keeps no form. -/
theorem claim6_saml_gate_counterexample :
    xmlnode_is_named demoSamlBad "prelogin-response" = true ∧
    demoCtx6.portal_userauthcookie ≠ none ∧
    parse_prelogin_xml demoB64 false demoCtx6 demoSamlBad = (demoCtx6, .einval) ∧
    (parse_prelogin_xml demoB64 false demoCtx6 demoSamlBad).1.form = none := by
  refine ⟨?_, ?_, ?_, ?_⟩ <;> decide

/-- Witness for C6 (amended) at a SAML-method response with the
`portal_userauthcookie` signal present. -/
theorem claim6_saml_gate_witness :
    ((parse_prelogin_xml demoB64 false demoCtx6 demoSamlOk).2 = .eperm ↔
      (demoCtx6.portal_userauthcookie = none ∧
       demoCtx6.portal_prelogonuserauthcookie = none ∧ demoCtx6.alt_secret = none)) ∧
    ((demoCtx6.portal_userauthcookie ≠ none ∨
        demoCtx6.portal_prelogonuserauthcookie ≠ none ∨ demoCtx6.alt_secret ≠ none) →
      parse_prelogin_xml demoB64 false demoCtx6 demoSamlOk
        = ({ demoCtx6 with
              form := some (mkPreloginForm false demoCtx6 demoSamlFields),
              username := none }, .ok)) :=
  claim6_saml_gate demoB64 false demoCtx6 demoSamlOk demoSamlFields (by decide) (by decide)
    (Or.inl (by decide))

theorem tokenHeuristic_iff (can_gen : Bool) (alt : Option String) (pl : Option String) :
    tokenHeuristic can_gen alt pl = true ↔
      (can_gen = false ∧ alt = none ∧ ∃ p, pl = some p ∧ p ≠ "Password") := by
  cases pl <;> cases can_gen <;> cases alt <;> simp [tokenHeuristic]

/-- C7: in every form built by the prelogin form builder, the secret field's
kind is `Token` exactly when the external token-generation capability is
absent, no alternate-secret override is set, and a server-supplied password
label is present and differs from the generic default label `"Password"`;
in every other case the secret field's kind is `Password`. -/
theorem claim7_token_heuristic (b64 : String → Option String) (can_gen : Bool)
    (ctx : LoginCtx) (root : Xml) (f : PreloginFields)
    (hroot : xmlnode_is_named root "prelogin-response" = true)
    (hscan : scanPreloginChildren b64 root.children {} = .ok f)
    (hok : (parse_prelogin_xml b64 can_gen ctx root).2 = .ok) :
    ∃ form, (parse_prelogin_xml b64 can_gen ctx root).1.form = some form ∧
      ((form.opts.getD 1 {}).type = .token ↔
        (can_gen = false ∧ ctx.alt_secret = none ∧
          ∃ pl, f.password_label = some pl ∧ pl ≠ "Password")) ∧
      ((form.opts.getD 1 {}).type = .token ∨ (form.opts.getD 1 {}).type = .password) := by
  have hred := parse_prelogin_xml_built b64 can_gen ctx root f hroot hscan
  by_cases hc : ((f.saml_method.isSome || f.saml_path.isSome) &&
      ctx.portal_userauthcookie.isNone &&
      ctx.portal_prelogonuserauthcookie.isNone &&
      ctx.alt_secret.isNone) = true
  · rw [hred, if_pos hc] at hok
    exact absurd hok (by simp)
  · refine ⟨mkPreloginForm can_gen ctx f, ?_, ?_, ?_⟩
    · rw [hred, if_neg hc]
    · by_cases hth : tokenHeuristic can_gen ctx.alt_secret f.password_label = true
      · simpa [mkPreloginForm, hth] using (tokenHeuristic_iff _ _ _).mp hth
      · simp only [mkPreloginForm, List.getD_cons_succ, List.getD_cons_zero]
        rw [if_neg hth]
        simp only [reduceCtorEq, false_iff]
        intro h
        exact hth ((tokenHeuristic_iff _ _ _).mpr h)
    · by_cases hth : tokenHeuristic can_gen ctx.alt_secret f.password_label = true <;>
        simp [mkPreloginForm, hth]

/-- Witness for C7: a prelogin response with password label
`"One-Time Code"` yields a Token secret field. -/
theorem claim7_token_heuristic_witness :
    ∃ form, (parse_prelogin_xml demoB64 false {} demoPreloginToken).1.form = some form ∧
      ((form.opts.getD 1 {}).type = .token ↔
        (false = false ∧ ({} : LoginCtx).alt_secret = none ∧
          ∃ pl, demoTokenFields.password_label = some pl ∧ pl ≠ "Password")) ∧
      ((form.opts.getD 1 {}).type = .token ∨ (form.opts.getD 1 {}).type = .password) :=
  claim7_token_heuristic demoB64 false {} demoPreloginToken demoTokenFields (by decide)
    (by decide) (by decide)

/-! ## Claim C5 -/

/-- C5: for every portal config response, if the policy document contains no
`gateways`/`external`/`list` subtree the parser fails with `-EINVAL`
(`InvalidResponse`); otherwise the gateway-selection `Select` field's choices
are exactly the `entry` elements of that list in document order, each with
`name` from the entry's `name` attribute and `label` from its nested
`description` text; and a list with zero `entry` children also fails with
`-EINVAL`. -/
theorem claim5_gateway_select (atoi : String → Int) (wnc : RC)
    (paf : OcAuthForm → VpnInfo → RC × VpnInfo) (hr : VpnInfo → RC × VpnInfo)
    (vpn : VpnInfo) (ctx : LoginCtx) (root : Xml) :
    ((portalScan atoi vpn ctx root).gateways = none →
        (parse_portal_xml atoi wnc paf hr vpn ctx root).1 = .einval) ∧
    (∀ g, (portalScan atoi vpn ctx root).gateways = some g →
        ((parse_portal_xml atoi wnc paf hr vpn ctx root).2.2.2.opts.getD 0 {}).choices
          = (g.children.filter (fun x => xmlnode_is_named x "entry")).map
              (fun e => { name := xmlnode_get_prop e "name",
                          label := ((e.children.filter
                              (fun x2 => xmlnode_is_named x2 "description")).map
                              xmlContent).getLast? }) ∧
        ((g.children.filter (fun x => xmlnode_is_named x "entry")) = [] →
          (parse_portal_xml atoi wnc paf hr vpn ctx root).1 = .einval)) := by
  constructor
  · intro h
    simp [parse_portal_xml, h]
  · intro g hg
    constructor
    · simp only [parse_portal_xml, hg]
      split_ifs <;> simp [gatewayChoices, gatewayChoiceOf]
    · intro hempty
      have hch : gatewayChoices g = [] := by simp [gatewayChoices, hempty]
      simp [parse_portal_xml, hg, hch]

/-- Witness for C5: the two-gateway portal response yields exactly the two
entries as choices, in document order. -/
theorem claim5_gateway_select_witness :
    (((parse_portal_xml (fun _ => 0) .ok (fun _ v => (.ok, v)) (fun v => (.ok, v))
          {} {} demoPortalXml).2.2.2.opts.getD 0 {}).choices
        = (demoGatewayList.children.filter (fun x => xmlnode_is_named x "entry")).map
            (fun e => { name := xmlnode_get_prop e "name",
                        label := ((e.children.filter
                            (fun x2 => xmlnode_is_named x2 "description")).map
                            xmlContent).getLast? })) ∧
    ((demoGatewayList.children.filter (fun x => xmlnode_is_named x "entry")) = [] →
      (parse_portal_xml (fun _ => 0) .ok (fun _ v => (.ok, v)) (fun v => (.ok, v))
          {} {} demoPortalXml).1 = .einval) :=
  (claim5_gateway_select (fun _ => 0) .ok (fun _ v => (.ok, v)) (fun v => (.ok, v))
      {} {} demoPortalXml).2 demoGatewayList rfl

/-! ## Claim C8 -/

theorem gpst_xml_or_error_nocb_cases (body : Option Xml) :
    gpst_xml_or_error_nocb body = .ok ∨ gpst_xml_or_error_nocb body = .einval := by
  rcases body with _ | root
  · right
    rfl
  · simp only [gpst_xml_or_error_nocb]
    split_ifs <;> simp

/-- C8 (amended): for every logout round trip whose response body lacks the
expected XML success status (including malformed bodies, `none` here),
`gpst_bye` reports the logout as failed through the log only and returns the
failure code to its caller — not a success status — leaving `vpninfo`, in
particular the stored cookie, unchanged.  The original claim, that the
operation returns a success status to its caller, is refuted by
`claim8_logout_failure_counterexample`. -/
theorem claim8_logout_failure (vpn : VpnInfo) (body : Option Xml)
    (hbad : gpst_xml_or_error_nocb body ≠ .ok) :
    gpst_bye (.ok body) vpn = (.einval, vpn, [.logout_failed]) ∧
    RC.einval ≠ RC.ok := by
  have h : gpst_xml_or_error_nocb body = .einval :=
    (gpst_xml_or_error_nocb_cases body).resolve_left hbad
  refine ⟨?_, by decide⟩
  simp [gpst_bye, h, RC.isNeg]

/-- Counterexample to C8 as stated: a malformed logout response body makes
`gpst_bye` return `-EINVAL`, a failure status and not a success status, while
logging the failure and leaving the stored cookie unchanged. -/
theorem claim8_logout_failure_counterexample :
    gpst_bye (.ok none) { cookie := some [("authcookie", "abc123")] }
      = (.einval, { cookie := some [("authcookie", "abc123")] }, [.logout_failed]) ∧
    RC.einval ≠ RC.ok := by
  refine ⟨?_, ?_⟩ <;> decide

/-- Witness for C8 (amended) at a malformed body and a stored cookie. -/
theorem claim8_logout_failure_witness :
    gpst_bye (.ok none) { cookie := some [("authcookie", "abc123")] }
      = (.einval, { cookie := some [("authcookie", "abc123")] }, [.logout_failed]) ∧
    RC.einval ≠ RC.ok :=
  claim8_logout_failure { cookie := some [("authcookie", "abc123")] } none (by decide)

/-! ## Claim C4 -/

theorem stage_prelogin_spec (b64 : String → Option String) (cg : Bool) (ph : Phase)
    (st : LoginState) (sc : Script) :
    (∀ r, stage_prelogin b64 cg ph st sc = .inl r →
        r.2.1.portal = st.portal ∧ r.2.2.count Ev.blind_retry_fired = 0) ∧
    (∀ q, stage_prelogin b64 cg ph st sc = .inr q →
        q.1.portal = st.portal ∧ q.2.2.count Ev.blind_retry_fired = 0) := by
  unfold stage_prelogin
  rcases ph
  case gotForm =>
    refine ⟨fun r h => absurd h (by simp), fun q h => ?_⟩
    obtain rfl := Sum.inr.inj h
    simp
  case replayForm =>
    refine ⟨fun r h => absurd h (by simp), fun q h => ?_⟩
    obtain rfl := Sum.inr.inj h
    simp
  case top =>
    rcases hps : sc.prelogins with _ | ⟨p, ps⟩
    · refine ⟨fun r h => ?_, fun q h => ?_⟩ <;> simp only [hps] at h
      · obtain rfl := Sum.inl.inj h
        simp
      · exact absurd h (by simp)
    · rcases p with prc | xml
      · refine ⟨fun r h => ?_, fun q h => ?_⟩ <;> simp only [hps] at h
        · obtain rfl := Sum.inl.inj h
          simp
        · exact absurd h (by simp)
      · refine ⟨fun r h => ?_, fun q h => ?_⟩ <;> simp only [hps] at h <;> split at h
        · obtain rfl := Sum.inl.inj h
          simp
        · exact absurd h (by simp)
        · exact absurd h (by simp)
        · obtain rfl := Sum.inr.inj h
          simp

theorem stage_collect_spec (ph : Phase) (st : LoginState) (sc : Script) :
    (∀ r, stage_collect ph st sc = .inl r →
        r.2.1.portal = st.portal ∧ r.2.2.count Ev.blind_retry_fired = 0) ∧
    (∀ q, stage_collect ph st sc = .inr q →
        q.1.portal = st.portal ∧ q.2.2.count Ev.blind_retry_fired = 0) := by
  unfold stage_collect
  by_cases hph : ph = .replayForm
  · refine ⟨fun r h => ?_, fun q h => ?_⟩ <;> simp only [hph, if_true, if_pos] at h
    · exact absurd h (by simp)
    · obtain rfl := Sum.inr.inj h
      simp
  · rcases hcs : sc.collects with _ | ⟨c0, cs⟩
    · refine ⟨fun r h => ?_, fun q h => ?_⟩ <;> simp only [hph, if_false, hcs] at h
      · obtain rfl := Sum.inl.inj h
        simp
      · exact absurd h (by simp)
    · refine ⟨fun r h => ?_, fun q h => ?_⟩ <;>
        simp only [hph, if_false, hcs] at h <;> split at h
      · obtain rfl := Sum.inl.inj h
        simp
      · exact absurd h (by simp)
      · exact absurd h (by simp)
      · obtain rfl := Sum.inr.inj h
        simp

theorem stage_token_spec (st : LoginState) (sc : Script) :
    (∀ r, stage_token st sc = .inl r →
        r.2.1.portal = st.portal ∧ r.2.2.count Ev.blind_retry_fired = 0) ∧
    (∀ q, stage_token st sc = .inr q →
        q.1.portal = st.portal ∧ q.2.2.count Ev.blind_retry_fired = 0) := by
  unfold stage_token
  rcases hts : sc.tokens with _ | ⟨t, ts⟩
  · refine ⟨fun r h => ?_, fun q h => ?_⟩ <;> simp only [hts] at h
    · obtain rfl := Sum.inl.inj h
      simp
    · exact absurd h (by simp)
  · refine ⟨fun r h => ?_, fun q h => ?_⟩ <;> simp only [hts] at h <;> split at h
    · obtain rfl := Sum.inl.inj h
      simp
    · exact absurd h (by simp)
    · exact absurd h (by simp)
    · obtain rfl := Sum.inr.inj h
      simp

theorem handle_submit_spec (st : LoginState) (rc : RC) :
    (handle_submit_response st rc).2.2.count Ev.blind_retry_fired
        + (if (handle_submit_response st rc).1.portal = true then 1 else 0)
      ≤ (if st.portal = true then 1 else 0) := by
  simp only [handle_submit_response]
  split_ifs <;> simp_all [List.count_cons, List.count_nil, List.count_append]

theorem stage_submit_spec (st : LoginState) (sc : Script) :
    (∀ r, stage_submit st sc = .inl r →
        r.2.1.portal = st.portal ∧ r.2.2.count Ev.blind_retry_fired = 0 ∨
        r.2.2.count Ev.blind_retry_fired + (if r.2.1.portal = true then 1 else 0)
          ≤ (if st.portal = true then 1 else 0)) ∧
    (∀ q, stage_submit st sc = .inr q →
        q.2.2.2.count Ev.blind_retry_fired + (if q.2.1.portal = true then 1 else 0)
          ≤ (if st.portal = true then 1 else 0)) := by
  unfold stage_submit
  rcases hss : sc.submits with _ | ⟨rt, rest⟩
  · refine ⟨fun r h => ?_, fun q h => ?_⟩ <;> simp only [hss] at h
    · obtain rfl := Sum.inl.inj h
      left
      simp
    · exact absurd h (by simp)
  · have hh := handle_submit_spec (applyRoundTrip rt st) rt.rc
    have hport : (applyRoundTrip rt st).portal = st.portal := rfl
    rcases hh2 : handle_submit_response (applyRoundTrip rt st) rt.rc with ⟨sth, act, evsh⟩
    rw [hh2, hport] at hh
    simp only at hh
    refine ⟨fun r h => ?_, fun q h => ?_⟩ <;> simp only [hss, hh2] at h <;>
      rcases act with arc | _ | _ | _ <;> simp only at h
    · obtain rfl := Sum.inl.inj h
      right
      simp only [List.count_cons, beq_iff_eq, reduceCtorEq, if_false]
      omega
    · exact absurd h (by simp)
    · exact absurd h (by simp)
    · exact absurd h (by simp)
    · exact absurd h (by simp)
    · obtain rfl := Sum.inr.inj h
      simp only [List.count_cons, beq_iff_eq, reduceCtorEq, if_false]
      omega
    · obtain rfl := Sum.inr.inj h
      simp only [List.count_cons, beq_iff_eq, reduceCtorEq, if_false]
      omega
    · obtain rfl := Sum.inr.inj h
      simp only [List.count_cons, beq_iff_eq, reduceCtorEq, if_false]
      omega

/-- A loop pass that leaves `gpst_login` emits at most the portal-mode budget
of blind-retry activations. -/
theorem loginIter_blind_inl (b64 : String → Option String) (cg : Bool) (ph : Phase)
    (st : LoginState) (sc : Script) (r : RC × LoginState × List Ev)
    (h : loginIter b64 cg ph st sc = .inl r) :
    r.2.2.count Ev.blind_retry_fired ≤ (if st.portal = true then 1 else 0) := by
  unfold loginIter at h
  rcases h1 : stage_prelogin b64 cg ph st sc with r1 | ⟨st1, sc1, e1⟩ <;>
    simp only [h1] at h
  · obtain rfl := Sum.inl.inj h
    have hs := (stage_prelogin_spec b64 cg ph st sc).1 r1 h1
    simp [hs.2]
  · have hp1 := (stage_prelogin_spec b64 cg ph st sc).2 (st1, sc1, e1) h1
    rcases h2 : stage_collect ph st1 sc1 with ⟨rc2, st2, e2⟩ | ⟨st2, sc2, e2⟩ <;>
      simp only [h2] at h
    · obtain rfl := Sum.inl.inj h
      have hp2 := (stage_collect_spec ph st1 sc1).1 (rc2, st2, e2) h2
      simp [List.count_append, hp1.2, hp2.2]
    · have hp2 := (stage_collect_spec ph st1 sc1).2 (st2, sc2, e2) h2
      rcases h3 : stage_token st2 sc2 with ⟨rc3, st3, e3⟩ | ⟨st3, sc3, e3⟩ <;>
        simp only [h3] at h
      · obtain rfl := Sum.inl.inj h
        have hp3 := (stage_token_spec st2 sc2).1 (rc3, st3, e3) h3
        simp [List.count_append, hp1.2, hp2.2, hp3.2]
      · have hp3 := (stage_token_spec st2 sc2).2 (st3, sc3, e3) h3
        rcases h4 : stage_submit st3 sc3 with ⟨rc4, st4, e4⟩ | q4 <;> simp only [h4] at h
        · obtain rfl := Sum.inl.inj h
          have hp4 := (stage_submit_spec st3 sc3).1 (rc4, st4, e4) h4
          have hst3 : st3.portal = st.portal := by rw [hp3.1, hp2.1, hp1.1]
          simp only at hp4
          rcases hp4 with ⟨_, hc⟩ | hc
          · simp [List.count_append, hp1.2, hp2.2, hp3.2, hc]
          · simp only [List.count_append, hp1.2, hp2.2, hp3.2]
            rw [hst3] at hc
            omega
        · exact absurd h (by simp)

/-- A loop pass that continues spends at most the portal-mode budget:
emitted blind-retry activations plus the remaining budget of the new state
are bounded by the old budget. -/
theorem loginIter_blind_inr (b64 : String → Option String) (cg : Bool) (ph : Phase)
    (st : LoginState) (sc : Script) (q : Phase × LoginState × Script × List Ev)
    (h : loginIter b64 cg ph st sc = .inr q) :
    q.2.2.2.count Ev.blind_retry_fired + (if q.2.1.portal = true then 1 else 0)
      ≤ (if st.portal = true then 1 else 0) := by
  unfold loginIter at h
  rcases h1 : stage_prelogin b64 cg ph st sc with r1 | ⟨st1, sc1, e1⟩ <;>
    simp only [h1] at h
  · exact absurd h (by simp)
  · have hp1 := (stage_prelogin_spec b64 cg ph st sc).2 (st1, sc1, e1) h1
    rcases h2 : stage_collect ph st1 sc1 with ⟨rc2, st2, e2⟩ | ⟨st2, sc2, e2⟩ <;>
      simp only [h2] at h
    · exact absurd h (by simp)
    · have hp2 := (stage_collect_spec ph st1 sc1).2 (st2, sc2, e2) h2
      rcases h3 : stage_token st2 sc2 with ⟨rc3, st3, e3⟩ | ⟨st3, sc3, e3⟩ <;>
        simp only [h3] at h
      · exact absurd h (by simp)
      · have hp3 := (stage_token_spec st2 sc2).2 (st3, sc3, e3) h3
        rcases h4 : stage_submit st3 sc3 with r4 | ⟨ph4, st4, sc4, e4⟩ <;>
          simp only [h4] at h
        · exact absurd h (by simp)
        · obtain rfl := Sum.inr.inj h
          have hp4 := (stage_submit_spec st3 sc3).2 (ph4, st4, sc4, e4) h4
          have hst3 : st3.portal = st.portal := by rw [hp3.1, hp2.1, hp1.1]
          rw [hst3] at hp4
          simp only at hp4 ⊢
          simp only [List.count_append, hp1.2, hp2.2, hp3.2]
          omega

/-- Along any run of the login loop, the blind retry fires at most once while
in portal mode and never in gateway mode. -/
theorem loginLoopF_blind (b64 : String → Option String) (cg : Bool) :
    ∀ (fuel : Nat) (ph : Phase) (st : LoginState) (sc : Script),
      (loginLoopF b64 cg fuel ph st sc).2.2.count Ev.blind_retry_fired
        ≤ (if st.portal = true then 1 else 0) := by
  intro fuel
  induction fuel with
  | zero =>
    intro ph st sc
    simp [loginLoopF]
  | succ fuel ih =>
    intro ph st sc
    rw [loginLoopF]
    rcases hit : loginIter b64 cg ph st sc with r | ⟨ph2, st2, sc2, evs⟩
    · exact loginIter_blind_inl b64 cg ph st sc r hit
    · simp only [List.count_append]
      have h1 := loginIter_blind_inr b64 cg ph st sc (ph2, st2, sc2, evs) hit
      have h2 := ih ph2 st2 sc2
      simp only at h1
      omega

theorem gpst_login_blind (b64 : String → Option String) (cg : Bool) (portal : Bool)
    (ctx : LoginCtx) (vpn : VpnInfo) (sc : Script) :
    (gpst_login b64 cg portal ctx vpn sc).2.2.count Ev.blind_retry_fired
      ≤ (if portal = true then 1 else 0) :=
  loginLoopF_blind b64 cg (sc.submits.length + 1) .top
    { portal := portal, blind_retry := false, ctx := ctx, vpn := vpn } sc

/-- The blind retry fires at most once per top-level `gpst_obtain_cookie`
call, whatever the scripted environment does. -/
theorem gpst_obtain_cookie_blind (b64 : String → Option String) (cg : Bool)
    (sc1 sc2 : Script) (vpn : VpnInfo) :
    (gpst_obtain_cookie b64 cg sc1 sc2 vpn).2.2.count Ev.blind_retry_fired ≤ 1 := by
  have hb : ∀ (b : Bool) (ctx : LoginCtx) (v : VpnInfo) (sc : Script),
      (gpst_login b64 cg b ctx v sc).2.2.count Ev.blind_retry_fired
        ≤ (if b = true then 1 else 0) :=
    fun b ctx v sc => gpst_login_blind b64 cg b ctx v sc
  simp only [gpst_obtain_cookie]
  rcases hm : obtainMode (obtainSetup vpn).1.urlpath with _ | b <;> simp only [hm]
  · split
    · simp only [List.count_append]
      have h1 := le_trans
        (hb true { alt_secret := (obtainSetup vpn).2 } (obtainSetup vpn).1 sc1)
        (show (if true = true then 1 else 0) ≤ 1 by decide)
      have h2 := le_trans (hb false
        (gpst_login b64 cg true { alt_secret := (obtainSetup vpn).2 }
          (obtainSetup vpn).1 sc1).2.1.ctx
        (gpst_login b64 cg true { alt_secret := (obtainSetup vpn).2 }
          (obtainSetup vpn).1 sc1).2.1.vpn sc2)
        (show (if false = true then 1 else 0) ≤ 0 by decide)
      omega
    · have h1 := le_trans
        (hb true { alt_secret := (obtainSetup vpn).2 } (obtainSetup vpn).1 sc1)
        (show (if true = true then 1 else 0) ≤ 1 by decide)
      omega
  · have h1 := hb b { alt_secret := (obtainSetup vpn).2 } (obtainSetup vpn).1 sc1
    split at h1 <;> omega

/-- C4 (amended): an Unauthorized (`-EACCES`) submission response clears all
entered field values; when it does not come immediately after a blind retry,
the flow returns to the form-collection step with the same (blanked) form
(first conjunct); when it comes immediately after a blind retry, the retry
flag is cleared and the loop restarts from the top — the prelogin step, by
then in gateway mode — rather than failing outright (second conjunct; the
original "fails outright" is refuted by
`claim4_blind_retry_counterexample`); and the blind retry fires at most once
per top-level `gpst_obtain_cookie` call, even if the gateway also rejects the
blindly retried credentials (third conjunct, for every scripted
environment). -/
theorem claim4_blind_retry (b64 : String → Option String) (cg : Bool)
    (sc1 sc2 : Script) (vpn : VpnInfo) :
    (∀ st rc, rc = .eacces → st.blind_retry = false →
        handle_submit_response st rc
          = ({ st with ctx := nukeCtxForm st.ctx }, .toGotForm, [.nuke])) ∧
    (∀ st rc, rc = .eacces → st.blind_retry = true →
        handle_submit_response st rc
          = ({ st with ctx := nukeCtxForm st.ctx, blind_retry := false },
             .toTop, [.nuke])) ∧
    (gpst_obtain_cookie b64 cg sc1 sc2 vpn).2.2.count Ev.blind_retry_fired ≤ 1 := by
  refine ⟨?_, ?_, gpst_obtain_cookie_blind b64 cg sc1 sc2 vpn⟩
  · intro st rc h1 h2
    simp [handle_submit_response, h1, h2]
  · intro st rc h1 h2
    simp [handle_submit_response, h1, h2]

/-- Counterexample to C4 as stated: in this portal login the blind gateway
retry is rejected with Unauthorized (the `.submit .eacces` right after
`.blind_retry_fired`), yet the flow does not fail outright — the loop
restarts at the prelogin step (the subsequent `.prelogin` event) and the run
ends successfully with `RC.ok`. -/
theorem claim4_blind_retry_counterexample :
    (gpst_obtain_cookie demoB64 false demoScript4 demoScriptNone demoVpn4).1 = .ok ∧
    (gpst_obtain_cookie demoB64 false demoScript4 demoScriptNone demoVpn4).2.2 =
      [.prelogin, .collect, .gen_token, .submit .ok, .capture (some "alice"),
       .blind_retry_fired, .gen_token, .submit .eacces, .nuke, .prelogin, .collect,
       .gen_token, .submit .ok, .capture (some "alice")] := by
  refine ⟨?_, ?_⟩ <;> decide

/-- Witness for C4 (amended): both Unauthorized branches at concrete states,
and the blind-retry bound on the concrete portal script. -/
theorem claim4_blind_retry_witness :
    (handle_submit_response demoStA .eacces
        = ({ demoStA with ctx := nukeCtxForm demoStA.ctx }, .toGotForm, [.nuke])) ∧
    (handle_submit_response demoStB .eacces
        = ({ demoStB with ctx := nukeCtxForm demoStB.ctx, blind_retry := false },
           .toTop, [.nuke])) ∧
    (gpst_obtain_cookie demoB64 false demoScript4 demoScriptNone demoVpn4).2.2.count
        Ev.blind_retry_fired ≤ 1 :=
  ⟨(claim4_blind_retry demoB64 false demoScript4 demoScriptNone demoVpn4).1
      demoStA .eacces rfl rfl,
   (claim4_blind_retry demoB64 false demoScript4 demoScriptNone demoVpn4).2.1
      demoStB .eacces rfl rfl,
   (claim4_blind_retry demoB64 false demoScript4 demoScriptNone demoVpn4).2.2⟩

/-! ## Claim C9 -/

/-- The prelogin child scan fails only with `-EINVAL`. -/
theorem scanPrelogin_error_einval (b64 : String → Option String) :
    ∀ (cs : List Xml) (acc : PreloginFields) (rc : RC),
      scanPreloginChildren b64 cs acc = .error rc → rc = .einval := by
  intro cs
  induction cs with
  | nil =>
    intro acc rc h
    simp [scanPreloginChildren] at h
  | cons c rest ih =>
    intro acc rc h
    simp only [scanPreloginChildren] at h
    split at h
    · split at h
      · injection h with h
        exact h.symm
      · exact ih _ _ h
    · exact ih _ _ h

/-- C9 (amended): the session username is assigned only when currently unset
(first conjunct: a known username survives every submission outcome), never
on an Unauthorized response (second conjunct), and on any other submission
outcome it is captured from the submitted form's first field (third
conjunct — including challenge continuations and failed attempts, which
corrects the original "only when a submitted form first succeeds", refuted
by `claim9_username_capture_counterexample`); once set, the next built
prelogin form forces the identity field to Hidden, pre-filled with that
username, moving it out of the session (fourth conjunct), while with no
prior username the identity field is a fresh Text field (fifth conjunct) —
so the user is never re-prompted for a known identity. -/
theorem claim9_username_capture (b64 : String → Option String) (cg : Bool) :
    (∀ st rc u, st.ctx.username = some u →
        (handle_submit_response st rc).1.ctx.username = some u) ∧
    (∀ st, st.ctx.username = none →
        (handle_submit_response st .eacces).1.ctx.username = none) ∧
    (∀ st rc, rc ≠ .eacces → st.ctx.username = none →
        (handle_submit_response st rc).1.ctx.username = formHeadValue st.ctx.form) ∧
    (∀ ctx root u ctx2, ctx.username = some u →
        xmlnode_is_named root "prelogin-response" = true →
        parse_prelogin_xml b64 cg ctx root = (ctx2, .ok) →
        ∃ form, ctx2.form = some form ∧
          (form.opts.getD 0 {}).type = .hidden ∧
          (form.opts.getD 0 {}).value = some u ∧
          ctx2.username = none) ∧
    (∀ ctx root ctx2, ctx.username = none →
        xmlnode_is_named root "prelogin-response" = true →
        parse_prelogin_xml b64 cg ctx root = (ctx2, .ok) →
        ∃ form, ctx2.form = some form ∧ (form.opts.getD 0 {}).type = .text) := by
  refine ⟨?_, ?_, ?_, ?_, ?_⟩
  · intro st rc u hu
    simp only [handle_submit_response]
    split_ifs <;> simp_all [nukeCtxForm]
  · intro st hu
    simp only [handle_submit_response]
    split_ifs <;> simp_all [nukeCtxForm]
  · intro st rc hrc hu
    simp only [handle_submit_response]
    split_ifs <;> simp_all [nukeCtxForm]
  · intro ctx root u ctx2 hu hroot hp
    rcases hscan : scanPreloginChildren b64 root.children {} with rc | f
    · obtain rfl := scanPrelogin_error_einval b64 root.children {} rc hscan
      simp [parse_prelogin_xml, hroot, hscan] at hp
    · have hred := parse_prelogin_xml_built b64 cg ctx root f hroot hscan
      rw [hred] at hp
      split_ifs at hp with hgate
      · simp at hp
      · obtain ⟨hctx2, -⟩ := Prod.mk.injEq .. ▸ hp
        refine ⟨mkPreloginForm cg ctx f, ?_, ?_, ?_, ?_⟩ <;>
          simp [← hctx2, mkPreloginForm, hu]
  · intro ctx root ctx2 hu hroot hp
    rcases hscan : scanPreloginChildren b64 root.children {} with rc | f
    · obtain rfl := scanPrelogin_error_einval b64 root.children {} rc hscan
      simp [parse_prelogin_xml, hroot, hscan] at hp
    · have hred := parse_prelogin_xml_built b64 cg ctx root f hroot hscan
      rw [hred] at hp
      split_ifs at hp with hgate
      · simp at hp
      · obtain ⟨hctx2, -⟩ := Prod.mk.injEq .. ▸ hp
        refine ⟨mkPreloginForm cg ctx f, ?_, ?_⟩ <;>
          simp [← hctx2, mkPreloginForm, hu]

/-- Counterexample to C9 as stated: in this gateway login the single
submission fails with `-EINVAL` — a failed attempt, with no successful
submission anywhere in the run — yet the session username is assigned from
the submitted form. -/
theorem claim9_username_capture_counterexample :
    (gpst_obtain_cookie demoB64 false demoScript9 demoScriptNone demoVpn9).1 = .einval ∧
    (gpst_obtain_cookie demoB64 false demoScript9 demoScriptNone
        demoVpn9).2.1.ctx.username = some "alice" ∧
    (gpst_obtain_cookie demoB64 false demoScript9 demoScriptNone demoVpn9).2.2 =
      [.prelogin, .collect, .gen_token, .submit .einval, .capture (some "alice")] ∧
    Ev.submit .ok ∉
      (gpst_obtain_cookie demoB64 false demoScript9 demoScriptNone demoVpn9).2.2 := by
  refine ⟨?_, ?_, ?_, ?_⟩ <;> decide

/-- Witness for C9 (amended): the capture conjuncts at concrete states and
the Hidden/Text prelogin behaviour at concrete contexts. -/
theorem claim9_username_capture_witness :
    ((handle_submit_response { portal := false, ctx := demoCtx9 } .ok).1.ctx.username
        = some "alice") ∧
    ((handle_submit_response demoStA .eacces).1.ctx.username = none) ∧
    ((handle_submit_response demoStA .einval).1.ctx.username
        = formHeadValue demoStA.ctx.form) ∧
    (∃ form, demoCtx9Out.form = some form ∧
        (form.opts.getD 0 {}).type = .hidden ∧
        (form.opts.getD 0 {}).value = some "alice" ∧
        demoCtx9Out.username = none) ∧
    (∃ form, demoCtx9Out2.form = some form ∧ (form.opts.getD 0 {}).type = .text) :=
  ⟨(claim9_username_capture demoB64 false).1 { portal := false, ctx := demoCtx9 } .ok
      "alice" rfl,
   (claim9_username_capture demoB64 false).2.1 demoStA rfl,
   (claim9_username_capture demoB64 false).2.2.1 demoStA .einval (by decide) rfl,
   (claim9_username_capture demoB64 false).2.2.2.1 demoCtx9 demoPreloginXml "alice"
      demoCtx9Out rfl (by decide) (by decide),
   (claim9_username_capture demoB64 false).2.2.2.2 {} demoPreloginXml demoCtx9Out2 rfl
      (by decide) (by decide)⟩
